import Mathlib

/-!
Verification of the cross-system reconciliation engine (ShopVox ↔ Wrike sync).

This file gives a shallow embedding, in Lean 4, of the core routines of the
repository — the retry utility (`withRetry` / `isRetryableError` /
`calculateDelay`), the Wrike HTTP wrapper (`makeRequest`), the create-or-update
reconciliation (`createOrUpdateQuoteTask` / `createOrUpdateWosoTask`), the
webhook authenticator (`verifyWebhookRequest` with HMAC-SHA256), the loop-guard
handlers, the execution-trace recorder (`logFlowComplete`), and the date
normalizer (`normalizeDateForComparison`) — and proves or refutes the
specification claims about them.

Modelling conventions:
- JavaScript strings are Lean `String`s; the scanning helpers work on `.data`.
- Machine floating point delays are modelled as `ℚ` with `Int.floor` for
  `Math.floor`; `Math.random()` becomes an explicit rational parameter in
  `[0, 1)` supplied per attempt.
- Asynchronous effects are modelled by explicit state passing: each remote
  call is an input to the modelled function (a value `Except JsError α`,
  the success or the thrown error of that call).
- Thrown JS errors are `JsError` values (name and message).
-/

namespace WelchSign

/-- A thrown JavaScript error: its `name` and `message` properties.
`error instanceof TypeError` is modelled as `name = "TypeError"`. -/
structure JsError where
  name : String
  message : String
deriving DecidableEq, Repr

/-! ### JavaScript string helpers (ASCII fragment)

These model `String.prototype.toLowerCase`, `String.prototype.includes` and
`String.prototype.trim` on the ASCII strings the repository manipulates. -/

/-- ASCII lower-casing of one character, as `toLowerCase` acts on ASCII. -/
def jsToLowerChar (c : Char) : Char :=
  if 'A' ≤ c ∧ c ≤ 'Z' then Char.ofNat (c.toNat + 32) else c

/-- ASCII `toLowerCase` on a whole string. -/
def jsToLower (s : String) : String :=
  ⟨s.data.map jsToLowerChar⟩

/-- Does the list start with the given pattern? -/
def listStartsWith : List Char → List Char → Bool
  | _, [] => true
  | [], _ :: _ => false
  | c :: cs, d :: ds => c == d && listStartsWith cs ds

/-- Substring occurrence test, the semantics of `String.prototype.includes`:
the pattern occurs starting at some position of the list. -/
def listContainsSub : List Char → List Char → Bool
  | [], sub => listStartsWith [] sub
  | c :: rest, sub => listStartsWith (c :: rest) sub || listContainsSub rest sub

/-- `haystack.includes(needle)` on strings. -/
def strIncludes (s sub : String) : Bool :=
  listContainsSub s.data sub.data

/-- ASCII whitespace recognised by `String.prototype.trim` (ASCII fragment:
space, tab, line feed, carriage return, form feed, vertical tab). -/
def isJsSpace (c : Char) : Bool :=
  c == ' ' || c == '\t' || c == '\n' || c == '\r' ||
  c == Char.ofNat 12 || c == Char.ofNat 11

/-- `String.prototype.trim`: drop whitespace from both ends. -/
def jsTrim (s : String) : String :=
  ⟨(((s.data.dropWhile isJsSpace).reverse.dropWhile isJsSpace).reverse)⟩

/-! ### Retry utility (`src/utils/retry.ts`, `part_015`)

`isRetryableError`, `calculateDelay` and `withRetry`, embedded from the
source. The regular expression `/status[:\s]+(\d{3})/i` is embedded as a
left-to-right scan: at each position try to match `status` case-insensitively,
then one or more `:`/whitespace separators, then three digits. Backtracking
inside `[:\s]+` cannot change the outcome because a separator is never a
digit, so the scan is faithful to the regex engine on these patterns. -/

/-- ASCII digit test (`\d`): code point between `'0'` (48) and `'9'` (57). -/
def isAsciiDigit (c : Char) : Bool :=
  48 ≤ c.toNat && c.toNat ≤ 57

/-- Numeric value of an ASCII digit character. -/
def digitVal (c : Char) : Nat :=
  c.toNat - '0'.toNat

/-- A character matched by `[:\s]` in the status regex (ASCII fragment). -/
def isSepChar (c : Char) : Bool :=
  c == ':' || c == ' ' || c == '\t' || c == '\n' || c == '\r'

/-- Read the three-digit capture group `(\d{3})` and its `parseInt` value. -/
def readThreeDigits : List Char → Option Nat
  | a :: b :: c :: _ =>
    if isAsciiDigit a && isAsciiDigit b && isAsciiDigit c then
      some (100 * digitVal a + 10 * digitVal b + digitVal c)
    else none
  | _ => none

/-- Greedily consume separator characters (`[:\s]+` after its first one). -/
def skipSeps : List Char → List Char
  | [] => []
  | c :: rest => if isSepChar c then skipSeps rest else c :: rest

/-- Try to match `status[:\s]+(\d{3})` (case-insensitive) at the head of the
list, returning the captured number. -/
def matchStatusAt (l : List Char) : Option Nat :=
  if listStartsWith (l.map jsToLowerChar) ['s', 't', 'a', 't', 'u', 's'] then
    match l.drop 6 with
    | [] => none
    | c :: rest =>
      if isSepChar c then readThreeDigits (skipSeps rest) else none
  else none

/-- `errorMessage.match(/status[:\s]+(\d{3})/i)`: scan left to right for the
first match and return the parsed status code. -/
def findStatusCode : List Char → Option Nat
  | [] => none
  | c :: rest =>
    match matchStatusAt (c :: rest) with
    | some n => some n
    | none => findStatusCode rest

/-- Second half of `isRetryableError`, reached when the status-code match
does not decide: the hard-coded status substrings, then the
authentication / not-found substrings, then the conservative default. -/
def isRetryableErrorTail (lowerMessage : String) : Bool :=
  if strIncludes lowerMessage "500" || strIncludes lowerMessage "502" ||
      strIncludes lowerMessage "503" || strIncludes lowerMessage "504" ||
      strIncludes lowerMessage "429" then
    true
  else if strIncludes lowerMessage "401" || strIncludes lowerMessage "403" ||
      strIncludes lowerMessage "404" || strIncludes lowerMessage "unauthorized" ||
      strIncludes lowerMessage "forbidden" then
    false
  else
    true

/-- `isRetryableError` from the retry utility: network errors and timeouts are
retryable; an embedded HTTP status decides 5xx/429 versus other 4xx; the
hard-coded status substrings and authentication failures decide next; anything
else defaults to retryable. -/
def isRetryableError (e : JsError) : Bool :=
  if e.name == "TypeError" && strIncludes e.message "fetch" then
    true
  else
    let lowerMessage := jsToLower e.message
    if strIncludes lowerMessage "fetch failed" ||
        strIncludes lowerMessage "network error" ||
        strIncludes lowerMessage "timeout" ||
        strIncludes lowerMessage "econnrefused" ||
        strIncludes lowerMessage "enotfound" ||
        strIncludes lowerMessage "econnreset" then
      true
    else
      match findStatusCode e.message.data with
      | some statusCode =>
        if 500 ≤ statusCode ∨ statusCode = 429 then true
        else if 400 ≤ statusCode ∧ statusCode < 500 then false
        else isRetryableErrorTail lowerMessage
      | none => isRetryableErrorTail lowerMessage

/-- Metadata aggregated by `withRetry` across attempts. -/
structure RetryMetadata where
  totalAttempts : Nat
  delays : List Int
  errors : List String
  isRetryable : Bool
deriving DecidableEq, Repr

/-- `calculateDelay(attempt, baseDelayMs, maxDelayMs)`: exponential backoff
capped at `maxDelayMs`, jittered by ±25%, floored. The `Math.random()` draw is
the explicit parameter `rand ∈ [0, 1)`. -/
def calculateDelay (attempt : Nat) (baseDelayMs maxDelayMs : ℚ) (rand : ℚ) : Int :=
  let exponentialDelay := baseDelayMs * 2 ^ attempt
  let cappedDelay := min exponentialDelay maxDelayMs
  let jitter := cappedDelay * (1 / 4) * (rand * 2 - 1)
  Int.floor (cappedDelay + jitter)

/-- Result of a `withRetry` run: the value returned or the error thrown,
together with the metadata the source attaches to the final error. -/
structure RetryRun (α : Type) where
  outcome : Except JsError α
  metadata : RetryMetadata

/-- One iteration of the `for (attempt = 0; attempt <= maxAttempts; ...)` loop
of `withRetry`. `fn n` is the result of the `n`-th invocation of the wrapped
operation; `rand n` the random draw used for the delay after attempt `n`. The
fuel starts at `maxAttempts + 1` (the exact number of loop iterations) so the
fuel-zero fallthrough mirrors the unreachable final `throw lastError`. -/
def withRetryAux (fn : Nat → Except JsError α) (shouldRetry : JsError → Bool)
    (maxAttempts : Nat) (baseDelayMs maxDelayMs : ℚ) (rand : Nat → ℚ) :
    Nat → Nat → RetryMetadata → RetryRun α
  | 0, _, md =>
    { outcome := Except.error { name := "Error", message := "unreachable" }, metadata := md }
  | fuel + 1, attempt, md =>
    let md1 := { md with totalAttempts := attempt + 1 }
    match fn attempt with
    | Except.ok v => { outcome := Except.ok v, metadata := md1 }
    | Except.error e =>
      let md2 := { md1 with
        errors := md1.errors ++ [e.message], isRetryable := shouldRetry e }
      if attempt == maxAttempts || !shouldRetry e then
        { outcome := Except.error e, metadata := md2 }
      else
        let delayMs := calculateDelay attempt baseDelayMs maxDelayMs (rand attempt)
        withRetryAux fn shouldRetry maxAttempts baseDelayMs maxDelayMs rand
          fuel (attempt + 1) { md2 with delays := md2.delays ++ [delayMs] }

/-- `withRetry(fn, options)` with explicit policy. -/
def withRetry (fn : Nat → Except JsError α) (shouldRetry : JsError → Bool)
    (maxAttempts : Nat) (baseDelayMs maxDelayMs : ℚ) (rand : Nat → ℚ) : RetryRun α :=
  withRetryAux fn shouldRetry maxAttempts baseDelayMs maxDelayMs rand
    (maxAttempts + 1) 0
    { totalAttempts := 0, delays := [], errors := [], isRetryable := false }

/-- `withRetry(fn)` with the default options of the source:
`maxAttempts = 3`, `baseDelayMs = 1000`, `maxDelayMs = 10000`,
`shouldRetry = isRetryableError`. -/
def withRetryDefault (fn : Nat → Except JsError α) (rand : Nat → ℚ) : RetryRun α :=
  withRetry fn isRetryableError 3 1000 10000 rand

/-- The delay recorded for attempt `i` of the default policy lies within
`[0.75, 1.25]` times `min(1000 · 2^i, 10000)`. -/
def delayInBounds (i : Nat) (d : Int) : Prop :=
  (3 / 4 : ℚ) * min ((1000 : ℚ) * 2 ^ i) 10000 ≤ (d : ℚ) ∧
  (d : ℚ) ≤ (5 / 4 : ℚ) * min ((1000 : ℚ) * 2 ^ i) 10000

lemma floor_jitter_bounds (c r : ℚ) (hc : 0 ≤ c) (h0 : 0 ≤ r) (h1 : r < 1)
    (k : ℤ) (hk : (k : ℚ) = (3 / 4) * c) :
    (3 / 4 : ℚ) * c ≤ (Int.floor (c + c * (1 / 4) * (r * 2 - 1)) : ℚ) ∧
    (Int.floor (c + c * (1 / 4) * (r * 2 - 1)) : ℚ) ≤ (5 / 4 : ℚ) * c := by
  constructor
  · rw [← hk]
    have hle : (k : ℚ) ≤ c + c * (1 / 4) * (r * 2 - 1) := by nlinarith
    exact_mod_cast Int.le_floor.mpr hle
  · have h := Int.floor_le (c + c * (1 / 4) * (r * 2 - 1))
    nlinarith

lemma calculateDelay_bounds (a : Nat) (r : ℚ) (h0 : 0 ≤ r) (h1 : r < 1)
    (ha : a < 3) : delayInBounds a (calculateDelay a 1000 10000 r) := by
  have key : ∀ i : Nat, min ((1000 : ℚ) * 2 ^ i) 10000 = 1000 * 2 ^ i →
      delayInBounds i (calculateDelay i 1000 10000 r) := by
    intro i hmin
    have hc : (0 : ℚ) ≤ 1000 * 2 ^ i := by positivity
    have h := floor_jitter_bounds ((1000 : ℚ) * 2 ^ i) r hc h0 h1 (750 * 2 ^ i)
      (by push_cast; ring)
    simpa only [delayInBounds, calculateDelay, hmin] using h
  interval_cases a <;>
  · apply key
    norm_num

/-- C2. With the default policy (`maxAttempts = 3`, `baseDelayMs = 1000`,
`maxDelayMs = 10000`), an operation that always throws an error classified as
retryable is invoked exactly 4 times (`totalAttempts = 4`, one invocation per
loop iteration), the error is propagated at the end, and the recorded delay
list has exactly 3 entries, the `i`-th of which lies within `[0.75, 1.25]`
times `min(1000 · 2^i, 10000)`. -/
theorem c2_retry_bounds {α : Type} (e : JsError) (rand : Nat → ℚ)
    (hretry : isRetryableError e = true)
    (hrand : ∀ i, 0 ≤ rand i ∧ rand i < 1) :
    (withRetryDefault (α := α) (fun _ => Except.error e) rand).outcome =
      Except.error e ∧
    (withRetryDefault (α := α) (fun _ => Except.error e) rand).metadata =
      { totalAttempts := 4,
        delays := [calculateDelay 0 1000 10000 (rand 0),
          calculateDelay 1 1000 10000 (rand 1),
          calculateDelay 2 1000 10000 (rand 2)],
        errors := [e.message, e.message, e.message, e.message],
        isRetryable := true } ∧
    (withRetryDefault (α := α) (fun _ => Except.error e) rand).metadata.delays.length
      = 3 ∧
    ∀ i, i < 3 →
      delayInBounds i
        ((withRetryDefault (α := α) (fun _ => Except.error e) rand).metadata.delays.getD i 0) := by
  have hrun : (withRetryDefault (α := α) (fun _ => Except.error e) rand) =
      { outcome := Except.error e,
        metadata :=
          { totalAttempts := 4,
            delays := [calculateDelay 0 1000 10000 (rand 0),
              calculateDelay 1 1000 10000 (rand 1),
              calculateDelay 2 1000 10000 (rand 2)],
            errors := [e.message, e.message, e.message, e.message],
            isRetryable := true } } := by
    simp [withRetryDefault, withRetry, withRetryAux, hretry]
  refine ⟨by rw [hrun], by rw [hrun], by rw [hrun]; rfl, ?_⟩
  intro i hi
  rw [hrun]
  interval_cases i <;>
    simpa using calculateDelay_bounds _ (rand _) (hrand _).1 (hrand _).2 (by omega)

/-- Concrete error whose message embeds HTTP status 503. -/
def err503 : JsError :=
  { name := "Error", message := "Request failed with status: 503" }

/-- Witness for `c2_retry_bounds` at `err503` and the constant draw `1/2`. -/
theorem c2_retry_bounds_witness :
    isRetryableError err503 = true ∧
    ((withRetryDefault (α := Unit) (fun _ => Except.error err503)
        (fun _ => 1 / 2)).metadata.totalAttempts = 4 ∧
      (withRetryDefault (α := Unit) (fun _ => Except.error err503)
        (fun _ => 1 / 2)).metadata.delays.length = 3 ∧
      (withRetryDefault (α := Unit) (fun _ => Except.error err503)
        (fun _ => 1 / 2)).metadata.delays = [1000, 2000, 4000]) := by
  have h := c2_retry_bounds (α := Unit) err503 (fun _ => 1 / 2) (by decide)
    (fun i => by norm_num)
  refine ⟨by decide, by rw [h.2.1], h.2.2.1, ?_⟩
  rw [h.2.1]
  norm_num [calculateDelay]

/-- C3. Non-retryable short-circuit and the classification rules of
`isRetryableError`:
1. an operation that always throws an error classified as not retryable is
   invoked exactly once under the default policy, the error is propagated
   with no recorded delay, and the metadata reports it as not retryable;
2. an error whose message embeds an HTTP status `≥ 500` or `= 429` (first
   match of the status scan) is classified retryable;
3. an error with an embedded status in `[400, 500)` other than `429` is
   classified not retryable, provided no higher-priority network rule fired;
4. an authentication / authorization / not-found failure (one of the
   substrings `401`, `403`, `404`, `unauthorized`, `forbidden`, with no
   higher-priority rule firing) is classified not retryable;
5. an error matching no classification rule at all is classified retryable. -/
theorem c3_nonretryable_shortcircuit :
    (∀ (α : Type) (e : JsError) (rand : Nat → ℚ), isRetryableError e = false →
      (withRetryDefault (α := α) (fun _ => Except.error e) rand).outcome =
          Except.error e ∧
        (withRetryDefault (α := α) (fun _ => Except.error e) rand).metadata =
          { totalAttempts := 1, delays := [], errors := [e.message],
            isRetryable := false }) ∧
    (∀ (e : JsError) (c : Nat), findStatusCode e.message.data = some c →
      (500 ≤ c ∨ c = 429) → isRetryableError e = true) ∧
    (∀ (e : JsError) (c : Nat),
      (e.name == "TypeError" && strIncludes e.message "fetch") = false →
      (strIncludes (jsToLower e.message) "fetch failed" ||
        strIncludes (jsToLower e.message) "network error" ||
        strIncludes (jsToLower e.message) "timeout" ||
        strIncludes (jsToLower e.message) "econnrefused" ||
        strIncludes (jsToLower e.message) "enotfound" ||
        strIncludes (jsToLower e.message) "econnreset") = false →
      findStatusCode e.message.data = some c →
      400 ≤ c → c < 500 → c ≠ 429 → isRetryableError e = false) ∧
    (∀ e : JsError,
      (e.name == "TypeError" && strIncludes e.message "fetch") = false →
      (strIncludes (jsToLower e.message) "fetch failed" ||
        strIncludes (jsToLower e.message) "network error" ||
        strIncludes (jsToLower e.message) "timeout" ||
        strIncludes (jsToLower e.message) "econnrefused" ||
        strIncludes (jsToLower e.message) "enotfound" ||
        strIncludes (jsToLower e.message) "econnreset") = false →
      findStatusCode e.message.data = none →
      (strIncludes (jsToLower e.message) "500" ||
        strIncludes (jsToLower e.message) "502" ||
        strIncludes (jsToLower e.message) "503" ||
        strIncludes (jsToLower e.message) "504" ||
        strIncludes (jsToLower e.message) "429") = false →
      (strIncludes (jsToLower e.message) "401" ||
        strIncludes (jsToLower e.message) "403" ||
        strIncludes (jsToLower e.message) "404" ||
        strIncludes (jsToLower e.message) "unauthorized" ||
        strIncludes (jsToLower e.message) "forbidden") = true →
      isRetryableError e = false) ∧
    (∀ e : JsError,
      (e.name == "TypeError" && strIncludes e.message "fetch") = false →
      (strIncludes (jsToLower e.message) "fetch failed" ||
        strIncludes (jsToLower e.message) "network error" ||
        strIncludes (jsToLower e.message) "timeout" ||
        strIncludes (jsToLower e.message) "econnrefused" ||
        strIncludes (jsToLower e.message) "enotfound" ||
        strIncludes (jsToLower e.message) "econnreset") = false →
      findStatusCode e.message.data = none →
      (strIncludes (jsToLower e.message) "500" ||
        strIncludes (jsToLower e.message) "502" ||
        strIncludes (jsToLower e.message) "503" ||
        strIncludes (jsToLower e.message) "504" ||
        strIncludes (jsToLower e.message) "429") = false →
      (strIncludes (jsToLower e.message) "401" ||
        strIncludes (jsToLower e.message) "403" ||
        strIncludes (jsToLower e.message) "404" ||
        strIncludes (jsToLower e.message) "unauthorized" ||
        strIncludes (jsToLower e.message) "forbidden") = false →
      isRetryableError e = true) := by
  refine ⟨?_, ?_, ?_, ?_, ?_⟩
  · intro α e rand h
    constructor <;> simp [withRetryDefault, withRetry, withRetryAux, h]
  · intro e c hfind hc
    simp only [isRetryableError, hfind]
    rw [if_pos hc]
    simp
  · intro e c h1 h2 hfind hc1 hc2 hc3
    simp only [isRetryableError, h1, h2, hfind, Bool.false_eq_true, if_false]
    rw [if_neg (by omega), if_pos (by omega)]
  · intro e h1 h2 hfind h3 h4
    simp only [isRetryableError, isRetryableErrorTail, h1, h2, hfind, h3, h4,
      Bool.false_eq_true, if_false, if_true]
  · intro e h1 h2 hfind h3 h4
    simp only [isRetryableError, isRetryableErrorTail, h1, h2, hfind, h3, h4,
      Bool.false_eq_true, if_false]

/-- Concrete error whose message embeds HTTP status 404. -/
def err404 : JsError :=
  { name := "Error", message := "Request failed with status: 404" }

/-- Witness for `c3_nonretryable_shortcircuit`: status 404 short-circuits
after one attempt, status 503 is retryable, a plain `unauthorized` message is
not retryable, an unclassified message is retryable. -/
theorem c3_nonretryable_shortcircuit_witness :
    isRetryableError err404 = false ∧
    ((withRetryDefault (α := Unit) (fun _ => Except.error err404)
        (fun _ => 0)).outcome = Except.error err404 ∧
      (withRetryDefault (α := Unit) (fun _ => Except.error err404)
        (fun _ => 0)).metadata =
        { totalAttempts := 1, delays := [], errors := [err404.message],
          isRetryable := false }) ∧
    isRetryableError err503 = true ∧
    isRetryableError { name := "Error", message := "unauthorized" } = false ∧
    isRetryableError { name := "Error", message := "mysterious failure" } = true :=
  ⟨by decide,
    c3_nonretryable_shortcircuit.1 Unit err404 (fun _ => 0) (by decide),
    c3_nonretryable_shortcircuit.2.1 err503 503 (by decide) (by omega),
    c3_nonretryable_shortcircuit.2.2.2.1
      { name := "Error", message := "unauthorized" }
      (by decide) (by decide) (by decide) (by decide) (by decide),
    c3_nonretryable_shortcircuit.2.2.2.2
      { name := "Error", message := "mysterious failure" }
      (by decide) (by decide) (by decide) (by decide) (by decide)⟩

/-! ### Wrike HTTP wrapper `makeRequest` (`part_001`, lines 154–207)

`makeRequest` calls `fetch`; on a *thrown* error (abort, network failure) it
retries up to `maxRetries = 3` times after a linear delay
`retryDelay * (retryCount + 1)`; a `Response` object — whatever its HTTP
status — is returned to the caller unchanged. The per-attempt fetch outcome
is the explicit input `fetchResult n`. -/

/-- An HTTP `Response` as `makeRequest` sees it: its status code. -/
structure HttpResponse where
  status : Nat
deriving DecidableEq, Repr

/-- `response.ok`: status in `[200, 300)`. -/
def HttpResponse.ok (r : HttpResponse) : Bool :=
  200 ≤ r.status && r.status < 300

/-- The retry predicate of `makeRequest`: `AbortError` by name, or a message
containing `fetch failed` / `timeout` / `ECONNRESET` / `ENOTFOUND`
(case-sensitive, as in the source). -/
def makeRequestShouldRetry (e : JsError) : Bool :=
  e.name == "AbortError" || strIncludes e.message "fetch failed" ||
  strIncludes e.message "timeout" || strIncludes e.message "ECONNRESET" ||
  strIncludes e.message "ENOTFOUND"

/-- `this.maxRetries` of `WrikeService`. -/
def wrikeMaxRetries : Nat := 3

/-- `this.retryDelay` of `WrikeService` (milliseconds). -/
def wrikeRetryDelay : Nat := 1000

instance {ε α : Type} [DecidableEq ε] [DecidableEq α] :
    DecidableEq (Except ε α) := fun x y =>
  match x, y with
  | Except.ok a, Except.ok b => decidable_of_iff (a = b) (by simp)
  | Except.ok _, Except.error _ => isFalse (fun h => Except.noConfusion h)
  | Except.error _, Except.ok _ => isFalse (fun h => Except.noConfusion h)
  | Except.error a, Except.error b => decidable_of_iff (a = b) (by simp)

/-- Result of a `makeRequest` run: the returned response or thrown error, the
number of `fetch` invocations, and the delays slept between them. -/
structure MakeRequestRun where
  outcome : Except JsError HttpResponse
  attempts : Nat
  delays : List Nat
deriving DecidableEq, Repr

/-- The recursion of `makeRequest`: try `fetch`; a resolved response is
returned as-is; a thrown error is retried after `retryDelay * (retryCount+1)`
when retryable and `retryCount < maxRetries`, else rethrown. Fuel starts at
`maxRetries + 1`, the maximum recursion depth, so the fuel-zero case (one
final attempt without retry) is never reached from `makeRequest`. -/
def makeRequestAux (fetchResult : Nat → Except JsError HttpResponse) :
    Nat → Nat → List Nat → MakeRequestRun
  | 0, retryCount, delays =>
    { outcome := fetchResult retryCount, attempts := retryCount + 1,
      delays := delays }
  | fuel + 1, retryCount, delays =>
    match fetchResult retryCount with
    | Except.ok resp =>
      { outcome := Except.ok resp, attempts := retryCount + 1, delays := delays }
    | Except.error e =>
      if makeRequestShouldRetry e && retryCount < wrikeMaxRetries then
        makeRequestAux fetchResult fuel (retryCount + 1)
          (delays ++ [wrikeRetryDelay * (retryCount + 1)])
      else
        { outcome := Except.error e, attempts := retryCount + 1, delays := delays }

/-- `makeRequest(url, options)` (retry behaviour only; headers, timeout timer
and URL are irrelevant to the claims). -/
def makeRequest (fetchResult : Nat → Except JsError HttpResponse) : MakeRequestRun :=
  makeRequestAux fetchResult (wrikeMaxRetries + 1) 0 []

/-- A 503 response object. -/
def resp503 : HttpResponse := { status := 503 }

/-- C4, counterexample. When `fetch` resolves with a 503 response,
`makeRequest` performs exactly one attempt, sleeps no delay, and returns the
503 response to the caller: the status-≥500/429 failure is *not* retried
inside the wrapper, contradicting the claim that such failures are retried
locally with exponential backoff and jitter. -/
theorem c4_counterexample :
    makeRequest (fun _ => Except.ok resp503) =
      { outcome := Except.ok resp503, attempts := 1, delays := [] } ∧
    ¬ 1 < (makeRequest (fun _ => Except.ok resp503)).attempts ∧
    resp503.ok = false ∧ 500 ≤ resp503.status := by
  refine ⟨rfl, ?_, rfl, by norm_num [resp503]⟩
  intro h
  simp [makeRequest, makeRequestAux] at h

/-- C4, amended. `makeRequest` never retries based on the response status: a
resolved response (any status, including ≥ 500 and 429) is returned on the
first attempt with no delay. Only thrown network-level errors (per
`makeRequestShouldRetry`) are retried, up to 3 retries with *linear* delays
`1000·(attempt+1)` ms and no jitter, after which the error propagates; a
thrown non-retryable error propagates after one attempt. -/
theorem c4_amended (resp : HttpResponse) (e : JsError)
    (fetchOk fetchErr : Nat → Except JsError HttpResponse)
    (hok : fetchOk 0 = Except.ok resp)
    (herr : ∀ n, fetchErr n = Except.error e) :
    makeRequest fetchOk = { outcome := Except.ok resp, attempts := 1, delays := [] } ∧
    (makeRequestShouldRetry e = true →
      makeRequest fetchErr =
        { outcome := Except.error e, attempts := 4, delays := [1000, 2000, 3000] }) ∧
    (makeRequestShouldRetry e = false →
      makeRequest fetchErr =
        { outcome := Except.error e, attempts := 1, delays := [] }) := by
  refine ⟨?_, ?_, ?_⟩
  · simp [makeRequest, makeRequestAux, hok]
  · intro hr
    simp [makeRequest, makeRequestAux, herr, hr, wrikeMaxRetries, wrikeRetryDelay]
  · intro hr
    simp [makeRequest, makeRequestAux, herr, hr]

/-- Witness for `c4_amended`: a 503 response is returned unretried; a thrown
`fetch failed` error is retried with linear delays 1000, 2000, 3000; a thrown
plain error is not retried. -/
theorem c4_amended_witness :
    makeRequest (fun _ => Except.ok resp503) =
      { outcome := Except.ok resp503, attempts := 1, delays := [] } ∧
    makeRequest (fun _ => Except.error { name := "Error", message := "fetch failed" }) =
      { outcome := Except.error { name := "Error", message := "fetch failed" },
        attempts := 4, delays := [1000, 2000, 3000] } ∧
    makeRequest (fun _ => Except.error { name := "Error", message := "boom" }) =
      { outcome := Except.error { name := "Error", message := "boom" },
        attempts := 1, delays := [] } := by
  have h1 := c4_amended resp503 { name := "Error", message := "fetch failed" }
    (fun _ => Except.ok resp503) (fun _ => Except.error { name := "Error", message := "fetch failed" })
    rfl (fun _ => rfl)
  have h2 := c4_amended resp503 { name := "Error", message := "boom" }
    (fun _ => Except.ok resp503) (fun _ => Except.error { name := "Error", message := "boom" })
    rfl (fun _ => rfl)
  exact ⟨h1.1, h1.2.1 (by decide), h2.2.2 (by decide)⟩

/-! ### Reconciliation engine (`part_001`):
`createOrUpdateQuoteTask` / `createOrUpdateWosoTask`

The Wrike task store is modelled as a list of tasks, each carrying the task
id, the `shopvoxId` custom field, and the managed field set written by the
sync. `findTaskByQuoteId` / `findTaskBySalesOrderId` query Wrike for tasks
whose `shopvoxId` custom field equals the source id; this is modelled as a
filter over the store (the "consistent search" premise of the spec).
`createQuoteTask` / `createWosoTask` POST a new task whose custom fields
include `shopvoxId = record.id`; `updateQuoteTask` / `updateWosoTask` PUT the
full managed field set (again including `shopvoxId = record.id`) onto one
task id. The field-mapping tables themselves are out of scope, so the managed
content written for a record is an abstract function `mapFields` of the
record. -/

/-- A canonical source record (ShopVox quote or sales order): its id and its
content (the content type is abstract — mapping tables are out of scope). -/
structure SvRecord (α : Type) where
  id : String
  content : α
deriving DecidableEq, Repr

/-- A Wrike task as the reconciliation sees it: the Wrike task id, the
`shopvoxId` custom field, and the managed fields last written. -/
structure WrikeTaskRow (β : Type) where
  tid : Nat
  shopvoxId : String
  managed : β
deriving DecidableEq, Repr

/-- The Wrike folder state: its tasks and the next task id Wrike will
allocate. -/
structure WrikeStore (β : Type) where
  tasks : List (WrikeTaskRow β)
  nextId : Nat
deriving DecidableEq, Repr

/-- `findTaskByQuoteId` / `findTaskBySalesOrderId`: search the folder for
tasks whose `shopvoxId` custom field equals the given source id. -/
def findTasksBySourceId (st : WrikeStore β) (sourceId : String) :
    List (WrikeTaskRow β) :=
  st.tasks.filter (fun t => t.shopvoxId == sourceId)

/-- `createQuoteTask` / `createWosoTask`: POST a new task whose custom fields
include `shopvoxId = r.id` and whose managed fields come from `r`. -/
def createTaskRow (mapFields : SvRecord α → β) (r : SvRecord α)
    (st : WrikeStore β) : WrikeTaskRow β × WrikeStore β :=
  let t : WrikeTaskRow β :=
    { tid := st.nextId, shopvoxId := r.id, managed := mapFields r }
  (t, { tasks := st.tasks ++ [t], nextId := st.nextId + 1 })

/-- `updateQuoteTask` / `updateWosoTask`: PUT the full managed field set
(including the `shopvoxId` custom field, which the mapping rewrites to
`r.id`) onto the task with the given id; other tasks are untouched. -/
def updateTaskRow (mapFields : SvRecord α → β) (taskId : Nat) (r : SvRecord α)
    (st : WrikeStore β) : WrikeStore β :=
  { st with
    tasks := st.tasks.map (fun t =>
      if t.tid == taskId then
        { t with shopvoxId := r.id, managed := mapFields r }
      else t) }

/-- The `{ taskId, wasCreated }` result of a create-or-update call. -/
structure UpsertResult where
  taskId : Nat
  wasCreated : Bool
deriving DecidableEq, Repr

/-- `createOrUpdateQuoteTask(quote)`: search by `quote.id`; if the search
result is non-empty, update the task `searchResult.data[0].id` and return
`wasCreated = false`; otherwise create and return `wasCreated = true`. -/
def createOrUpdateQuoteTask (mapFields : SvRecord α → β) (quote : SvRecord α)
    (st : WrikeStore β) : UpsertResult × WrikeStore β :=
  match findTasksBySourceId st quote.id with
  | t :: _ =>
    ({ taskId := t.tid, wasCreated := false },
      updateTaskRow mapFields t.tid quote st)
  | [] =>
    let created := createTaskRow mapFields quote st
    ({ taskId := created.1.tid, wasCreated := true }, created.2)

/-- JavaScript object spread `{ ...a, ...b }` on string-keyed records: keys of
`b` override keys of `a`. -/
def spreadMerge (a b : List (String × String)) : List (String × String) :=
  a.filter (fun p => b.all (fun q => q.1 != p.1)) ++ b

/-- `createOrUpdateWosoTask(salesOrder, customFields)`: format the address
fields, merge the provided custom fields over them, then search by
`salesOrder.id` and update `searchResult.data[0].id` or create, returning the
merged custom fields alongside `{ taskId, wasCreated }`. The managed content
written is `mapFields salesOrder merged`. -/
def createOrUpdateWosoTask (mapFields : SvRecord α → List (String × String) → β)
    (formatSalesOrderAddresses : SvRecord α → List (String × String))
    (customFields : Option (List (String × String))) (salesOrder : SvRecord α)
    (st : WrikeStore β) :
    (UpsertResult × List (String × String)) × WrikeStore β :=
  let addressFields := formatSalesOrderAddresses salesOrder
  let merged := spreadMerge addressFields (customFields.getD [])
  match findTasksBySourceId st salesOrder.id with
  | t :: _ =>
    (({ taskId := t.tid, wasCreated := false }, merged),
      updateTaskRow (fun r => mapFields r merged) t.tid salesOrder st)
  | [] =>
    let created := createTaskRow (fun r => mapFields r merged) salesOrder st
    (({ taskId := created.1.tid, wasCreated := true }, merged), created.2)

lemma list_map_id_of_mem {l : List γ} {f : γ → γ} (h : ∀ x ∈ l, f x = x) :
    l.map f = l := by
  induction l with
  | nil => rfl
  | cons a l ih =>
    simp only [List.map_cons, h a (by simp)]
    rw [ih (fun x hx => h x (by simp [hx]))]

lemma upsert_twice {α β : Type} (f g : SvRecord α → β) (st : WrikeStore β)
    (q q' : SvRecord α) (r1 r2 : UpsertResult) (st1 st2 : WrikeStore β)
    (hid : q'.id = q.id)
    (hfresh : ∀ t ∈ st.tasks, t.tid < st.nextId)
    (hempty : findTasksBySourceId st q.id = [])
    (h1 : createOrUpdateQuoteTask f q st = (r1, st1))
    (h2 : createOrUpdateQuoteTask g q' st1 = (r2, st2)) :
    r1.wasCreated = true ∧ r2.wasCreated = false ∧ r2.taskId = r1.taskId ∧
    st2.tasks.length = st1.tasks.length ∧
    findTasksBySourceId st2 q.id =
      [{ tid := r1.taskId, shopvoxId := q.id, managed := g q' }] := by
  have hfilter : st.tasks.filter (fun t => t.shopvoxId == q.id) = [] := hempty
  unfold createOrUpdateQuoteTask at h1 h2
  rw [hempty] at h1
  simp only [createTaskRow] at h1
  injection h1 with hr1 hst1
  subst hr1
  subst hst1
  have hsearch1 : findTasksBySourceId
      { tasks := st.tasks ++ [{ tid := st.nextId, shopvoxId := q.id, managed := f q }],
        nextId := st.nextId + 1 } q'.id =
      [{ tid := st.nextId, shopvoxId := q.id, managed := f q }] := by
    unfold findTasksBySourceId
    rw [hid]
    simp [List.filter_append, hfilter]
  rw [hsearch1] at h2
  simp only [updateTaskRow] at h2
  injection h2 with hr2 hst2
  subst hr2
  subst hst2
  refine ⟨rfl, rfl, rfl, by simp, ?_⟩
  unfold findTasksBySourceId
  simp only [List.map_append, List.map_cons, List.map_nil]
  have hmap : st.tasks.map (fun t =>
      if t.tid == st.nextId then { t with shopvoxId := q'.id, managed := g q' }
      else t) = st.tasks := by
    apply list_map_id_of_mem
    intro t ht
    have : t.tid ≠ st.nextId := Nat.ne_of_lt (hfresh t ht)
    simp [this]
  rw [hmap]
  simp [List.filter_append, hfilter, hid]

lemma createOrUpdateWosoTask_eq {α β : Type}
    (mapFields : SvRecord α → List (String × String) → β)
    (fmt : SvRecord α → List (String × String))
    (cf : Option (List (String × String))) (so : SvRecord α)
    (st : WrikeStore β) :
    createOrUpdateWosoTask mapFields fmt cf so st =
      (((createOrUpdateQuoteTask
          (fun r => mapFields r (spreadMerge (fmt so) (cf.getD []))) so st).1,
        spreadMerge (fmt so) (cf.getD [])),
      (createOrUpdateQuoteTask
          (fun r => mapFields r (spreadMerge (fmt so) (cf.getD []))) so st).2) := by
  unfold createOrUpdateWosoTask createOrUpdateQuoteTask
  cases findTasksBySourceId st so.id <;> rfl

/-- C1. Reconciliation is an idempotent upsert, for both
`createOrUpdateQuoteTask` and `createOrUpdateWosoTask`: if a first call
created the target task for a source id (the search was empty, so the call
took the create branch), then a second call with a possibly-modified record
carrying the same id takes the update branch (`wasCreated = false`, same task
id), creates no second task, and leaves exactly one task for that source id
whose managed fields come from the record passed to the second call (for the
WoSo variant, together with the merged custom fields the second call
returns). The hypothesis that the search is a consistent filter over the
store is built into the model; task-id freshness of the store is the stated
invariant `hfresh`. -/
theorem c1_idempotent_upsert :
    (∀ {α β : Type} (mapFields : SvRecord α → β) (st : WrikeStore β)
      (q q' : SvRecord α) (r1 r2 : UpsertResult) (st1 st2 : WrikeStore β),
      q'.id = q.id →
      (∀ t ∈ st.tasks, t.tid < st.nextId) →
      findTasksBySourceId st q.id = [] →
      createOrUpdateQuoteTask mapFields q st = (r1, st1) →
      createOrUpdateQuoteTask mapFields q' st1 = (r2, st2) →
      r1.wasCreated = true ∧ r2.wasCreated = false ∧ r2.taskId = r1.taskId ∧
      st2.tasks.length = st1.tasks.length ∧
      findTasksBySourceId st2 q.id =
        [{ tid := r1.taskId, shopvoxId := q.id, managed := mapFields q' }]) ∧
    (∀ {α β : Type} (mapFields : SvRecord α → List (String × String) → β)
      (fmt : SvRecord α → List (String × String))
      (cf cf' : Option (List (String × String))) (st : WrikeStore β)
      (so so' : SvRecord α) (r1 r2 : UpsertResult)
      (cf1 cf2 : List (String × String)) (st1 st2 : WrikeStore β),
      so'.id = so.id →
      (∀ t ∈ st.tasks, t.tid < st.nextId) →
      findTasksBySourceId st so.id = [] →
      createOrUpdateWosoTask mapFields fmt cf so st = ((r1, cf1), st1) →
      createOrUpdateWosoTask mapFields fmt cf' so' st1 = ((r2, cf2), st2) →
      r1.wasCreated = true ∧ r2.wasCreated = false ∧ r2.taskId = r1.taskId ∧
      st2.tasks.length = st1.tasks.length ∧
      findTasksBySourceId st2 so.id =
        [{ tid := r1.taskId, shopvoxId := so.id, managed := mapFields so' cf2 }]) := by
  constructor
  · intro α β mapFields st q q' r1 r2 st1 st2 hid hfresh hempty h1 h2
    exact upsert_twice mapFields mapFields st q q' r1 r2 st1 st2 hid hfresh hempty h1 h2
  · intro α β mapFields fmt cf cf' st so so' r1 r2 cf1 cf2 st1 st2 hid hfresh hempty h1 h2
    rw [createOrUpdateWosoTask_eq] at h1 h2
    have hcf2 : cf2 = spreadMerge (fmt so') (cf'.getD []) := by
      have := congrArg (fun p => p.1.2) h2
      simpa using this.symm
    have h1q : createOrUpdateQuoteTask
        (fun r => mapFields r (spreadMerge (fmt so) (cf.getD []))) so st = (r1, st1) := by
      have ha := congrArg (fun p => p.1.1) h1
      have hb := congrArg (fun p => p.2) h1
      simp only at ha hb
      rw [Prod.ext_iff]
      exact ⟨ha, hb⟩
    have h2q : createOrUpdateQuoteTask
        (fun r => mapFields r (spreadMerge (fmt so') (cf'.getD []))) so' st1 = (r2, st2) := by
      have ha := congrArg (fun p => p.1.1) h2
      have hb := congrArg (fun p => p.2) h2
      simp only at ha hb
      rw [Prod.ext_iff]
      exact ⟨ha, hb⟩
    have := upsert_twice (fun r => mapFields r (spreadMerge (fmt so) (cf.getD [])))
      (fun r => mapFields r (spreadMerge (fmt so') (cf'.getD [])))
      st so so' r1 r2 st1 st2 hid hfresh hempty h1q h2q
    rw [hcf2]
    exact this

/-- Witness for `c1_idempotent_upsert`: starting from an empty store, both
variants create on the first call and update in place on the second. -/
theorem c1_idempotent_upsert_witness :
    ((SvRecord.mk "q1" 2 : SvRecord Nat).id = (SvRecord.mk "q1" 1).id ∧
      (∀ t ∈ (WrikeStore.mk [] 0 : WrikeStore Nat).tasks, t.tid < 0) ∧
      findTasksBySourceId (WrikeStore.mk ([] : List (WrikeTaskRow Nat)) 0) "q1" = [] ∧
      createOrUpdateQuoteTask SvRecord.content (SvRecord.mk "q1" 1)
          (WrikeStore.mk [] 0) =
        ({ taskId := 0, wasCreated := true },
          WrikeStore.mk [{ tid := 0, shopvoxId := "q1", managed := 1 }] 1) ∧
      createOrUpdateQuoteTask SvRecord.content (SvRecord.mk "q1" 2)
          (WrikeStore.mk [{ tid := 0, shopvoxId := "q1", managed := 1 }] 1) =
        ({ taskId := 0, wasCreated := false },
          WrikeStore.mk [{ tid := 0, shopvoxId := "q1", managed := 2 }] 1)) ∧
    (true = true ∧ false = false ∧ (0 : Nat) = 0 ∧ (1 : Nat) = 1 ∧
      findTasksBySourceId
          (WrikeStore.mk [{ tid := 0, shopvoxId := "q1", managed := 2 }] 1) "q1" =
        [{ tid := 0, shopvoxId := "q1", managed := 2 }]) := by
  refine ⟨⟨rfl, by simp, rfl, rfl, rfl⟩, ?_⟩
  have h := c1_idempotent_upsert.1 (α := Nat) (β := Nat) SvRecord.content
    (WrikeStore.mk [] 0) (SvRecord.mk "q1" 1) (SvRecord.mk "q1" 2)
    { taskId := 0, wasCreated := true } { taskId := 0, wasCreated := false }
    (WrikeStore.mk [{ tid := 0, shopvoxId := "q1", managed := 1 }] 1)
    (WrikeStore.mk [{ tid := 0, shopvoxId := "q1", managed := 2 }] 1)
    rfl (by simp) rfl rfl rfl
  exact ⟨h.1, h.2.1, h.2.2.1, h.2.2.2.1, h.2.2.2.2⟩

/-- A store holding two tasks that both carry `shopvoxId = "dup"` — the
duplicated-search-result state the spec calls a data-integrity anomaly. -/
def dupStore : WrikeStore Nat :=
  { tasks := [{ tid := 0, shopvoxId := "dup", managed := 10 },
              { tid := 1, shopvoxId := "dup", managed := 11 }],
    nextId := 2 }

/-- C6, counterexample. When the search returns two candidates, both
`createOrUpdateQuoteTask` and `createOrUpdateWosoTask` silently update the
first candidate (`searchResult.data[0]`) and return `wasCreated = false`; no
error is surfaced and the second candidate is left stale — contradicting the
claim that the operations must not proceed on a multi-candidate result. -/
theorem c6_counterexample :
    (findTasksBySourceId dupStore "dup").length = 2 ∧
    createOrUpdateQuoteTask SvRecord.content { id := "dup", content := 7 }
        dupStore =
      ({ taskId := 0, wasCreated := false },
        { tasks := [{ tid := 0, shopvoxId := "dup", managed := 7 },
                    { tid := 1, shopvoxId := "dup", managed := 11 }],
          nextId := 2 }) ∧
    createOrUpdateWosoTask (fun r _ => r.content) (fun _ => []) none
        { id := "dup", content := 7 } dupStore =
      (({ taskId := 0, wasCreated := false }, []),
        { tasks := [{ tid := 0, shopvoxId := "dup", managed := 7 },
                    { tid := 1, shopvoxId := "dup", managed := 11 }],
          nextId := 2 }) := by
  refine ⟨rfl, ?_, ?_⟩ <;> rfl

/-- C6, amended. When the target search returns one or more candidates —
including more than one — `createOrUpdateQuoteTask` and
`createOrUpdateWosoTask` do not surface an error: they update exactly the
first candidate `searchResult.data[0]` (a silent pick-first) and return
`wasCreated = false`; every task whose id differs from the first candidate's
is left unchanged. -/
theorem c6_amended :
    (∀ {α β : Type} (mapFields : SvRecord α → β) (q : SvRecord α)
      (st : WrikeStore β) (t : WrikeTaskRow β) (rest : List (WrikeTaskRow β)),
      findTasksBySourceId st q.id = t :: rest →
      (createOrUpdateQuoteTask mapFields q st).1 =
        { taskId := t.tid, wasCreated := false } ∧
      (createOrUpdateQuoteTask mapFields q st).2.tasks =
        st.tasks.map (fun u =>
          if u.tid == t.tid then
            { u with shopvoxId := q.id, managed := mapFields q }
          else u)) ∧
    (∀ {α β : Type} (mapFields : SvRecord α → List (String × String) → β)
      (fmt : SvRecord α → List (String × String))
      (cf : Option (List (String × String))) (so : SvRecord α)
      (st : WrikeStore β) (t : WrikeTaskRow β) (rest : List (WrikeTaskRow β)),
      findTasksBySourceId st so.id = t :: rest →
      (createOrUpdateWosoTask mapFields fmt cf so st).1.1 =
        { taskId := t.tid, wasCreated := false } ∧
      (createOrUpdateWosoTask mapFields fmt cf so st).2.tasks =
        st.tasks.map (fun u =>
          if u.tid == t.tid then
            { u with
              shopvoxId := so.id
              managed := mapFields so (spreadMerge (fmt so) (cf.getD [])) }
          else u)) := by
  constructor
  · intro α β mapFields q st t rest h
    unfold createOrUpdateQuoteTask
    rw [h]
    exact ⟨rfl, rfl⟩
  · intro α β mapFields fmt cf so st t rest h
    unfold createOrUpdateWosoTask
    rw [h]
    exact ⟨rfl, rfl⟩

/-- Witness for `c6_amended` on the two-candidate store. -/
theorem c6_amended_witness :
    findTasksBySourceId dupStore "dup" =
      [{ tid := 0, shopvoxId := "dup", managed := 10 },
       { tid := 1, shopvoxId := "dup", managed := 11 }] ∧
    (createOrUpdateQuoteTask SvRecord.content { id := "dup", content := 7 }
        dupStore).1 = { taskId := 0, wasCreated := false } ∧
    (createOrUpdateQuoteTask SvRecord.content { id := "dup", content := 7 }
        dupStore).2.tasks =
      dupStore.tasks.map (fun u =>
        if u.tid == 0 then { u with shopvoxId := "dup", managed := 7 } else u) := by
  have h := c6_amended.1 (α := Nat) (β := Nat) SvRecord.content
    { id := "dup", content := 7 } dupStore
    { tid := 0, shopvoxId := "dup", managed := 10 }
    [{ tid := 1, shopvoxId := "dup", managed := 11 }] rfl
  exact ⟨rfl, h.1, h.2⟩

/-! ### Date normalizer (`src/utils/date-normalizer.ts`)

`normalizeDateForComparison` returns the trimmed input when it already
matches `^\d{4}-\d{2}-\d{2}$`; otherwise it parses the string with
`new Date(...)` and renders `` `${getUTCFullYear()}-${pad2(month)}-${pad2(day)}` ``
(the year *unpadded*, so negative years keep their sign), or returns `""` on
an invalid date.

`new Date(string)` is split into a *mandated* part and an *engine* part:

- `parseIsoDate` embeds the ECMA-262 Date Time String Format instances whose
  UTC calendar fields are forced by the specification and equal the parsed
  components: `YYYY-MM-DD` date-only forms (interpreted as UTC), the same
  with a signed expanded six-digit year `±YYYYYY` (kept within the safely
  representable year range `|year| ≤ 271000`; `-000000` is not a valid
  instance), and either form followed by `THH:mm[:ss[.sss]]Z` (the `Z`
  designator; date-*time* forms without an offset are interpreted as *local*
  time, so their UTC fields are environment-dependent and are not part of
  the mandated fragment). Component values must be in range — per ECMA an
  out-of-bounds component means the string is not a valid format instance.
- every other string (offset forms, no-zone date-times, boundary-range
  expanded years, and all fallback formats, whose handling ECMA leaves
  implementation-defined) is delegated to an abstract `engine` function.
  The only constraint placed on an engine is what ECMA guarantees for every
  valid Date value: `getUTCMonth() + 1 ∈ [1, 12]` and
  `getUTCDate() ∈ [1, 31]` (`ValidFields`). The C10 theorems quantify over
  all engines, so they hold for the real host environment as one instance;
  `normalizeDateForComparison` below is the concrete executable
  instantiation with the engine that yields an invalid date, used by the
  loop-guard model and evaluated only at mandated-fragment inputs. -/

/-- The character for a decimal digit value. -/
def digitChar (n : Nat) : Char := Char.ofNat (48 + n)

/-- Decimal rendering of a natural number (the JS `${n}` template for a
non-negative integer), with explicit fuel so the kernel can evaluate it. -/
def natToCharsAux : Nat → Nat → List Char
  | 0, _ => []
  | fuel + 1, n =>
    if n < 10 then [digitChar n]
    else natToCharsAux fuel (n / 10) ++ [digitChar (n % 10)]

/-- Decimal rendering of `n`; `n + 1` units of fuel always suffice. -/
def natToChars (n : Nat) : List Char := natToCharsAux (n + 1) n

/-- `String(n).padStart(2, "0")` for the month/day fields (both < 100). -/
def pad2 (n : Nat) : List Char :=
  let s := natToChars n
  if s.length < 2 then '0' :: s else s

/-- Read exactly two digits, returning their value and the rest. -/
def readDigit2 : List Char → Option (Nat × List Char)
  | a :: b :: rest =>
    if isAsciiDigit a && isAsciiDigit b then
      some (10 * digitVal a + digitVal b, rest)
    else none
  | _ => none

/-- Read exactly four digits, returning their value and the rest. -/
def readDigit4 : List Char → Option (Nat × List Char)
  | a :: b :: c :: d :: rest =>
    if isAsciiDigit a && isAsciiDigit b && isAsciiDigit c && isAsciiDigit d then
      some (1000 * digitVal a + 100 * digitVal b + 10 * digitVal c + digitVal d,
        rest)
    else none
  | _ => none

/-- Consume the three-digit milliseconds field, returning the rest. -/
def readMillis : List Char → Option (List Char)
  | a :: b :: c :: rest =>
    if isAsciiDigit a && isAsciiDigit b && isAsciiDigit c then some rest
    else none
  | _ => none

/-- Read exactly six digits (expanded-year form), returning their value and
the rest. -/
def readDigit6 : List Char → Option (Nat × List Char)
  | a :: b :: c :: d :: e :: f :: rest =>
    if isAsciiDigit a && isAsciiDigit b && isAsciiDigit c && isAsciiDigit d &&
        isAsciiDigit e && isAsciiDigit f then
      some (100000 * digitVal a + 10000 * digitVal b + 1000 * digitVal c +
        100 * digitVal d + 10 * digitVal e + digitVal f, rest)
    else none
  | _ => none

/-- End of a mandated-UTC time string: the `Z` designator (a date-time
without it is interpreted as local time, which is the engine's business). -/
def timeEnd : List Char → Bool
  | ['Z'] => true
  | _ => false

/-- Validate the time-of-day part after the `T` separator:
`HH:mm`, `HH:mm:ss` or `HH:mm:ss.sss`, ending in `Z`. -/
def parseTimePart (l : List Char) : Bool :=
  match readDigit2 l with
  | none => false
  | some (hh, r1) =>
    if hh ≤ 23 then
      match r1 with
      | ':' :: r2 =>
        match readDigit2 r2 with
        | none => false
        | some (mm, r3) =>
          if mm ≤ 59 then
            match r3 with
            | ':' :: r4 =>
              match readDigit2 r4 with
              | none => false
              | some (ss, r5) =>
                if ss ≤ 59 then
                  match r5 with
                  | '.' :: r6 =>
                    match readMillis r6 with
                    | none => false
                    | some r7 => timeEnd r7
                  | r => timeEnd r
                else false
            | r => timeEnd r
          else false
      | _ => false
    else false

/-- Gregorian leap year (proleptic, signed year as in `getUTCFullYear`). -/
def isLeapYear (y : Int) : Bool :=
  (y % 4 == 0 && y % 100 != 0) || y % 400 == 0

/-- Days in a month of the proleptic Gregorian calendar. -/
def daysInMonth (y : Int) (m : Nat) : Nat :=
  if m = 2 then (if isLeapYear y then 29 else 28)
  else if m = 4 ∨ m = 6 ∨ m = 9 ∨ m = 11 then 30
  else 31

/-- What may follow the `YYYY-MM-DD` prefix: nothing (a date-only form,
interpreted as UTC), or a `T` and a valid time-of-day part ending in `Z`. -/
def isoTailOk : List Char → Bool
  | [] => true
  | 'T' :: timeRest => parseTimePart timeRest
  | _ => false

/-- The UTC calendar fields of a valid Date value: `getUTCFullYear()`
(signed), `getUTCMonth() + 1` and `getUTCDate()`. -/
structure JsDateFields where
  year : Int
  month : Nat
  day : Nat
  deriving DecidableEq, Repr

/-- What ECMA-262 guarantees for the calendar fields of *every* valid Date
value, however it was produced: `getUTCMonth()` is in `0..11` and
`getUTCDate()` in `1..31`. -/
def ValidFields (f : JsDateFields) : Prop :=
  1 ≤ f.month ∧ f.month ≤ 12 ∧ 1 ≤ f.day ∧ f.day ≤ 31

/-- The signed year denoted by an (optionally negated) digit run. -/
def signYear (negative : Bool) (yv : Nat) : Int :=
  if negative then -(yv : Int) else (yv : Int)

/-- Shared body of the mandated parse: read the year (`readDigit6` after a
sign for the expanded form, else `readDigit4`), then `-MM-DD` and a valid
tail. Components must be in range (otherwise the string is not a valid
format instance and falls to the engine); expanded years are kept within a
magnitude safely inside the representable time range, and `-000000` is
excluded as mandated. -/
def parseIsoCore (expanded negative : Bool) (l : List Char) :
    Option JsDateFields :=
  match (if expanded then readDigit6 l else readDigit4 l) with
  | none => none
  | some (yv, r1) =>
    match r1 with
    | '-' :: r2 =>
      match readDigit2 r2 with
      | none => none
      | some (m, r3) =>
        match r3 with
        | '-' :: r4 =>
          match readDigit2 r4 with
          | none => none
          | some (d, r5) =>
            if isoTailOk r5 = true ∧ 1 ≤ m ∧ m ≤ 12 ∧ 1 ≤ d ∧
                d ≤ daysInMonth (signYear negative yv) m ∧
                (expanded = true → yv ≤ 271000) ∧
                ¬(negative = true ∧ yv = 0) then
              some { year := signYear negative yv, month := m, day := d }
            else none
        | _ => none
    | _ => none

/-- The mandated fragment of `new Date(string)`: `±YYYYYY-MM-DD` or
`YYYY-MM-DD`, optionally followed by `THH:mm[:ss[.sss]]Z`. `some` fields are
forced by ECMA-262; `none` means the string's handling is
implementation-defined (or its time value environment-dependent) and is
delegated to the engine. -/
def parseIsoDate (l : List Char) : Option JsDateFields :=
  match l with
  | '+' :: rest => parseIsoCore true false rest
  | '-' :: rest => parseIsoCore true true rest
  | _ => parseIsoCore false false l

/-- The last six characters of the date-only pattern: `-`, two digits, `-`,
two digits, end of string. -/
def dateTail (l : List Char) : Bool :=
  match l with
  | c1 :: c2 :: c3 :: c4 :: c5 :: c6 :: [] =>
    c1 == '-' && isAsciiDigit c2 && isAsciiDigit c3 && c4 == '-' &&
    isAsciiDigit c5 && isAsciiDigit c6
  | _ => false

/-- The regex `^\d{4}-\d{2}-\d{2}$`: a maximal leading digit run of length
exactly four, followed by the `-dd-dd` tail. -/
def dateOnlyShape (l : List Char) : Bool :=
  (l.takeWhile isAsciiDigit).length == 4 && dateTail (l.dropWhile isAsciiDigit)

/-- A non-empty leading digit run (an unpadded non-negative year) followed
by `-dd-dd`. -/
def yearShape (l : List Char) : Bool :=
  !(l.takeWhile isAsciiDigit).isEmpty && dateTail (l.dropWhile isAsciiDigit)

/-- Strip one leading `-` sign, if present. -/
def dropSign : List Char → List Char
  | '-' :: rest => rest
  | l => l

/-- The shape actually guaranteed for non-empty outputs: `yearShape`,
possibly prefixed by the `-` sign of a negative `getUTCFullYear()`. -/
def signedYearShape (l : List Char) : Bool :=
  yearShape l || yearShape (dropSign l)

/-- `String(getUTCFullYear())`: the unpadded decimal rendering of the
signed year. -/
def intToChars (y : Int) : List Char :=
  if y < 0 then '-' :: natToChars y.natAbs else natToChars y.natAbs

/-- The `` `${year}-${month}-${day}` `` template of the source (month and
day already `padStart(2, "0")`-padded). -/
def mkDateString (f : JsDateFields) : String :=
  ⟨intToChars f.year ++ '-' :: (pad2 f.month ++ '-' :: pad2 f.day)⟩

/-- `normalizeDateForComparison(dateString)` with the implementation-defined
part of `new Date` abstracted as `engine`; `none` is `null`/`undefined`.
An engine answer of `none` is an invalid date (`NaN` time value). -/
def normalizeDateWith (engine : List Char → Option JsDateFields)
    (dateString : Option String) : String :=
  match dateString with
  | none => ""
  | some s =>
    if s == "" || jsTrim s == "" then ""
    else
      let t := jsTrim s
      if dateOnlyShape t.data then t
      else
        match parseIsoDate t.data with
        | some f => mkDateString f
        | none =>
          match engine t.data with
          | some f => mkDateString f
          | none => ""

/-- The engine that treats every string outside the mandated fragment as an
invalid date. -/
def noFallbackEngine : List Char → Option JsDateFields := fun _ => none

/-- The concrete executable instantiation used by the loop-guard model (its
theorems only ever evaluate it on mandated-fragment inputs, where every
engine agrees). -/
def normalizeDateForComparison (dateString : Option String) : String :=
  normalizeDateWith noFallbackEngine dateString

lemma digitVal_le {c : Char} (h : isAsciiDigit c = true) : digitVal c ≤ 9 := by
  simp only [isAsciiDigit, Bool.and_eq_true, decide_eq_true_eq] at h
  have h0 : Char.toNat '0' = 48 := rfl
  simp only [digitVal, h0]
  omega

lemma digitChar_digit {n : Nat} (h : n < 10) :
    isAsciiDigit (digitChar n) = true := by
  interval_cases n <;> decide

lemma digit_not_space {c : Char} (h : isAsciiDigit c = true) :
    isJsSpace c = false := by
  cases hsp : isJsSpace c
  · rfl
  · exfalso
    simp only [isJsSpace, Bool.or_eq_true, beq_iff_eq] at hsp
    rcases hsp with ((((h1 | h1) | h1) | h1) | h1) | h1 <;> subst h1 <;>
      simp [isAsciiDigit] at h

lemma natToCharsAux_digits :
    ∀ fuel n, ∀ c ∈ natToCharsAux fuel n, isAsciiDigit c = true := by
  intro fuel
  induction fuel with
  | zero => intro n c hc; simp [natToCharsAux] at hc
  | succ f ih =>
    intro n c hc
    simp only [natToCharsAux] at hc
    split at hc
    · simp only [List.mem_singleton] at hc
      subst hc
      exact digitChar_digit (by omega)
    · simp only [List.mem_append, List.mem_singleton] at hc
      rcases hc with hc | hc
      · exact ih _ _ hc
      · subst hc
        exact digitChar_digit (by omega)

lemma natToChars_digits (n : Nat) : ∀ c ∈ natToChars n, isAsciiDigit c = true :=
  natToCharsAux_digits _ _

lemma natToChars_ne_nil (n : Nat) : natToChars n ≠ [] := by
  simp only [natToChars, natToCharsAux]
  split <;> simp

lemma natToCharsAux_small (f n : Nat) (hf : 0 < f) (h : n < 10) :
    natToCharsAux f n = [digitChar n] := by
  obtain ⟨g, rfl⟩ : ∃ g, f = g + 1 := ⟨f - 1, by omega⟩
  simp [natToCharsAux, h]

lemma natToCharsAux_two (f n : Nat) (hf : 2 ≤ f) (h1 : 10 ≤ n) (h2 : n ≤ 99) :
    natToCharsAux f n = [digitChar (n / 10), digitChar (n % 10)] := by
  obtain ⟨g, rfl⟩ : ∃ g, f = g + 1 := ⟨f - 1, by omega⟩
  rw [natToCharsAux, if_neg (by omega),
    natToCharsAux_small g (n / 10) (by omega) (by omega)]
  rfl

lemma pad2_shape (n : Nat) (h : n ≤ 99) :
    ∃ a b, pad2 n = [a, b] ∧ isAsciiDigit a = true ∧ isAsciiDigit b = true := by
  by_cases h10 : n < 10
  · refine ⟨'0', digitChar n, ?_, by decide, digitChar_digit h10⟩
    have hs : natToChars n = [digitChar n] :=
      natToCharsAux_small (n + 1) n (by omega) h10
    simp [pad2, hs]
  · refine ⟨digitChar (n / 10), digitChar (n % 10), ?_,
      digitChar_digit (by omega), digitChar_digit (by omega)⟩
    have hs : natToChars n = [digitChar (n / 10), digitChar (n % 10)] :=
      natToCharsAux_two (n + 1) n (by omega) (by omega) h
    simp [pad2, hs]

lemma takeWhile_append_of_all {p : Char → Bool} {ys : List Char}
    (zs : List Char) (h : ∀ c ∈ ys, p c = true) :
    (ys ++ zs).takeWhile p = ys ++ zs.takeWhile p := by
  induction ys with
  | nil => simp
  | cons a ys ih =>
    simp only [List.cons_append, List.takeWhile_cons, h a (by simp)]
    rw [ih (fun c hc => h c (by simp [hc]))]
    simp

lemma dropWhile_append_of_all {p : Char → Bool} {ys : List Char}
    (zs : List Char) (h : ∀ c ∈ ys, p c = true) :
    (ys ++ zs).dropWhile p = zs.dropWhile p := by
  induction ys with
  | nil => simp
  | cons a ys ih =>
    simp only [List.cons_append, List.dropWhile_cons, h a (by simp)]
    exact ih (fun c hc => h c (by simp [hc]))

lemma daysInMonth_le (y : Int) (m : Nat) : daysInMonth y m ≤ 31 := by
  unfold daysInMonth
  split
  · split <;> omega
  · split <;> omega

lemma parseIsoCore_bounds {expanded negative : Bool} {l : List Char}
    {f : JsDateFields} (h : parseIsoCore expanded negative l = some f) :
    ValidFields f := by
  unfold parseIsoCore at h
  split at h
  · exact absurd h (by simp)
  · rename_i yv r1 hread
    split at h
    · split at h
      · exact absurd h (by simp)
      · split at h
        · split at h
          · exact absurd h (by simp)
          · split at h
            · rename_i hcond
              simp only [Option.some.injEq] at h
              subst h
              exact ⟨hcond.2.1, hcond.2.2.1, hcond.2.2.2.1,
                hcond.2.2.2.2.1.trans (daysInMonth_le _ _)⟩
            · exact absurd h (by simp)
        · exact absurd h (by simp)
    · exact absurd h (by simp)

lemma parseIsoDate_bounds {l : List Char} {f : JsDateFields}
    (h : parseIsoDate l = some f) : ValidFields f := by
  unfold parseIsoDate at h
  split at h <;> exact parseIsoCore_bounds h

lemma dateTail_struct {l : List Char} (h : dateTail l = true) :
    ∃ a b c d, l = ['-', a, b, '-', c, d] ∧ isAsciiDigit a = true ∧
      isAsciiDigit b = true ∧ isAsciiDigit c = true ∧ isAsciiDigit d = true := by
  rcases l with _ | ⟨c1, _ | ⟨c2, _ | ⟨c3, _ | ⟨c4, _ | ⟨c5, _ | ⟨c6, rest⟩⟩⟩⟩⟩⟩ <;>
    try simp [dateTail] at h
  rcases rest with _ | ⟨c7, rest⟩
  · simp only [dateTail, Bool.and_eq_true, beq_iff_eq] at h
    obtain ⟨⟨⟨⟨⟨h1, h2⟩, h3⟩, h4⟩, h5⟩, h6⟩ := h
    exact ⟨c2, c3, c5, c6, by rw [h1, h4], h2, h3, h5, h6⟩
  · simp [dateTail] at h

lemma dateOnly_yearShape {l : List Char} (h : dateOnlyShape l = true) :
    yearShape l = true := by
  simp only [dateOnlyShape, Bool.and_eq_true, beq_iff_eq] at h
  obtain ⟨h1, h2⟩ := h
  simp only [yearShape, Bool.and_eq_true, Bool.not_eq_eq_eq_not, Bool.not_true]
  refine ⟨?_, h2⟩
  have hne : l.takeWhile isAsciiDigit ≠ [] := by
    intro he
    rw [he] at h1
    simp at h1
  simpa [List.isEmpty_iff] using hne

lemma datePartsShape (n m d : Nat) (hm : m ≤ 99) (hd : d ≤ 99) :
    yearShape (natToChars n ++ '-' :: (pad2 m ++ '-' :: pad2 d)) = true := by
  obtain ⟨a, b, hab, ha, hb⟩ := pad2_shape m hm
  obtain ⟨c2, d2, hcd, hc2, hd2⟩ := pad2_shape d hd
  rw [hab, hcd]
  simp only [yearShape, Bool.and_eq_true, Bool.not_eq_eq_eq_not, Bool.not_true]
  have hdashdigit : isAsciiDigit '-' = false := by decide
  constructor
  · rw [takeWhile_append_of_all _ (natToChars_digits n)]
    have hdash : List.takeWhile isAsciiDigit
        ('-' :: ([a, b] ++ '-' :: [c2, d2])) = [] := by
      simp [List.takeWhile_cons, hdashdigit]
    rw [hdash]
    simpa [List.isEmpty_iff] using natToChars_ne_nil n
  · rw [dropWhile_append_of_all _ (natToChars_digits n)]
    have hdash : List.dropWhile isAsciiDigit
        ('-' :: ([a, b] ++ '-' :: [c2, d2])) =
        '-' :: ([a, b] ++ '-' :: [c2, d2]) := by
      simp [List.dropWhile_cons, hdashdigit]
    rw [hdash]
    simp [dateTail, ha, hb, hc2, hd2]

lemma dropSign_cons (X : List Char) : dropSign ('-' :: X) = X := rfl

lemma mkDateString_signedShape (f : JsDateFields) (hm : f.month ≤ 99)
    (hd : f.day ≤ 99) : signedYearShape (mkDateString f).data = true := by
  by_cases hy : f.year < 0
  · have hdata : (mkDateString f).data = '-' ::
        (natToChars f.year.natAbs ++ '-' :: (pad2 f.month ++ '-' :: pad2 f.day)) := by
      simp [mkDateString, intToChars, hy]
    have h2 := datePartsShape f.year.natAbs f.month f.day hm hd
    rw [hdata]
    simp only [signedYearShape, dropSign_cons, h2, Bool.or_true]
  · have hdata : (mkDateString f).data =
        natToChars f.year.natAbs ++ '-' :: (pad2 f.month ++ '-' :: pad2 f.day) := by
      simp [mkDateString, intToChars, hy]
    have h2 := datePartsShape f.year.natAbs f.month f.day hm hd
    rw [hdata]
    simp only [signedYearShape, h2, Bool.true_or]

lemma dateOnly_signedShape {l : List Char} (h : dateOnlyShape l = true) :
    signedYearShape l = true := by
  simp only [signedYearShape, dateOnly_yearShape h, Bool.true_or]

lemma dateOnlyShape_trim {o : String} (h : dateOnlyShape o.data = true) :
    jsTrim o = o := by
  simp only [dateOnlyShape, Bool.and_eq_true, beq_iff_eq] at h
  obtain ⟨h1, h2⟩ := h
  obtain ⟨a, b, c2, d2, hD, ha, hb, hc2, hd2⟩ := dateTail_struct h2
  cases hT : o.data.takeWhile isAsciiDigit with
  | nil => rw [hT] at h1; simp at h1
  | cons t1 T2 =>
    have ht1 : isAsciiDigit t1 = true :=
      List.mem_takeWhile_imp (p := isAsciiDigit) (l := o.data)
        (by rw [hT]; exact List.mem_cons_self _ _)
    have hshape : o.data = t1 :: (T2 ++ ['-', a, b, '-', c2, d2]) := by
      conv_lhs => rw [← List.takeWhile_append_dropWhile isAsciiDigit o.data]
      rw [hT, hD]
      simp
    have hsp1 : isJsSpace t1 = false := digit_not_space ht1
    have hsp2 : isJsSpace d2 = false := digit_not_space hd2
    have key : ((((t1 :: (T2 ++ ['-', a, b, '-', c2, d2])).dropWhile
        isJsSpace).reverse.dropWhile isJsSpace).reverse) =
        t1 :: (T2 ++ ['-', a, b, '-', c2, d2]) := by
      have hstep1 : (t1 :: (T2 ++ ['-', a, b, '-', c2, d2])).dropWhile
          isJsSpace = t1 :: (T2 ++ ['-', a, b, '-', c2, d2]) := by
        simp [List.dropWhile_cons, hsp1]
      rw [hstep1]
      have hrev : (t1 :: (T2 ++ ['-', a, b, '-', c2, d2])).reverse =
          d2 :: ([c2, '-', b, a, '-'] ++ (T2.reverse ++ [t1])) := by
        simp
      rw [hrev]
      have hstep2 : (d2 :: ([c2, '-', b, a, '-'] ++ (T2.reverse ++ [t1]))).dropWhile
          isJsSpace = d2 :: ([c2, '-', b, a, '-'] ++ (T2.reverse ++ [t1])) := by
        simp [List.dropWhile_cons, hsp2]
      rw [hstep2, ← hrev, List.reverse_reverse]
    show String.mk (((o.data.dropWhile isJsSpace).reverse.dropWhile
      isJsSpace).reverse) = o
    rw [hshape, key, ← hshape]

lemma dateOnlyShape_ne_nil {o : String} (h : dateOnlyShape o.data = true) :
    (o == "") = false := by
  simp only [dateOnlyShape, Bool.and_eq_true, beq_iff_eq] at h
  obtain ⟨h1, -⟩ := h
  have hne : o.data ≠ [] := by
    intro he
    rw [he] at h1
    simp at h1
  rw [beq_eq_false_iff_ne]
  intro he
  subst he
  exact hne rfl

lemma normalize_fixpoint (engine : List Char → Option JsDateFields)
    {o : String} (h : dateOnlyShape o.data = true) :
    normalizeDateWith engine (some o) = o := by
  have htrim := dateOnlyShape_trim h
  have hne := dateOnlyShape_ne_nil h
  simp only [normalizeDateWith, htrim, hne, Bool.or_self,
    Bool.false_eq_true, if_false, h, if_true]

lemma normalize_empty (engine : List Char → Option JsDateFields) :
    normalizeDateWith engine (some "") = "" := rfl

/-- C10, counterexample. The input `"0005-01-01T00:00:00Z"` is a valid
instance of the ECMA-262 Date Time String Format whose UTC fields the
specification mandates (it is parsed by the mandated fragment, so every
conforming host agrees), and the function returns `"5-01-01"`: non-empty and
not matching `^\d{4}-\d{2}-\d{2}$`, refuting the claimed output shape and
with it the claim. The mandated signed expanded-year instance
`"-000100-01-01T00:00:00Z"` likewise yields `"-100-01-01"`, whose year part
is signed — also outside the claimed shape. -/
theorem c10_counterexample :
    normalizeDateForComparison (some "0005-01-01T00:00:00Z") = "5-01-01" ∧
    normalizeDateForComparison (some "0005-01-01T00:00:00Z") ≠ "" ∧
    dateOnlyShape (normalizeDateForComparison
      (some "0005-01-01T00:00:00Z")).data = false ∧
    parseIsoDate "0005-01-01T00:00:00Z".data =
      some { year := 5, month := 1, day := 1 } ∧
    normalizeDateForComparison (some "-000100-01-01T00:00:00Z") = "-100-01-01" ∧
    dateOnlyShape (normalizeDateForComparison
      (some "-000100-01-01T00:00:00Z")).data = false ∧
    parseIsoDate "-000100-01-01T00:00:00Z".data =
      some { year := -100, month := 1, day := 1 } := by
  refine ⟨by decide, by decide, by decide, by decide, by decide, by decide,
    by decide⟩

/-- C10, amended. `normalizeDateForComparison` is total; for every host
engine handling the strings ECMA-262 leaves implementation-defined (every
engine's valid dates have month `1..12` and day `1..31`) and for every input
(including `null`/`undefined`, empty, and unparseable strings) it returns
either the empty string or a string of the shape `year-MM-DD` where the year
part is an optionally `-`-signed non-empty digit run (the *unpadded* decimal
`getUTCFullYear()` — four unsigned digits exactly when the year lies in
`[1000, 9999]`) and the month and day are two digits; applying the function
to its own output returns that output unchanged whenever the output is empty
or matches `^\d{4}-\d{2}-\d{2}$` (idempotence can fail when the year part is
not four digits, per the counterexample). -/
theorem c10_amended :
    (∀ engine : List Char → Option JsDateFields,
      (∀ l f, engine l = some f → ValidFields f) →
      ∀ s : Option String,
        normalizeDateWith engine s = "" ∨
          signedYearShape (normalizeDateWith engine s).data = true) ∧
    (∀ engine : List Char → Option JsDateFields, ∀ s : Option String,
      (normalizeDateWith engine s = "" ∨
        dateOnlyShape (normalizeDateWith engine s).data = true) →
      normalizeDateWith engine (some (normalizeDateWith engine s)) =
        normalizeDateWith engine s) := by
  constructor
  · intro engine hengine s
    match s with
    | none => exact Or.inl rfl
    | some s =>
      simp only [normalizeDateWith]
      split
      · exact Or.inl rfl
      · split
        · rename_i hshape
          exact Or.inr (dateOnly_signedShape hshape)
        · split
          · rename_i f heq
            obtain ⟨hm1, hm2, hd1, hd2⟩ := parseIsoDate_bounds heq
            exact Or.inr (mkDateString_signedShape f (by omega) (by omega))
          · split
            · rename_i f heq
              obtain ⟨hm1, hm2, hd1, hd2⟩ := hengine _ _ heq
              exact Or.inr (mkDateString_signedShape f (by omega) (by omega))
            · exact Or.inl rfl
  · intro engine s h
    rcases h with h | h
    · rw [h]
      exact normalize_empty engine
    · exact normalize_fixpoint engine h

/-- Witness for `c10_amended` at the no-fallback engine (which trivially
satisfies the engine constraint) and input `"2024-12-15T05:00:00.000Z"`,
whose output `"2024-12-15"` is of the signed-year shape, matches the strict
date-only shape, and re-normalizes to itself. -/
theorem c10_amended_witness :
    (∀ l f, noFallbackEngine l = some f → ValidFields f) ∧
    (normalizeDateWith noFallbackEngine (some "2024-12-15T05:00:00.000Z") = "" ∨
      signedYearShape (normalizeDateWith noFallbackEngine
        (some "2024-12-15T05:00:00.000Z")).data = true) ∧
    (normalizeDateWith noFallbackEngine (some "2024-12-15T05:00:00.000Z") = "" ∨
      dateOnlyShape (normalizeDateWith noFallbackEngine
        (some "2024-12-15T05:00:00.000Z")).data = true) ∧
    normalizeDateWith noFallbackEngine (some (normalizeDateWith noFallbackEngine
      (some "2024-12-15T05:00:00.000Z"))) =
      normalizeDateWith noFallbackEngine (some "2024-12-15T05:00:00.000Z") := by
  have heng : ∀ l f, noFallbackEngine l = some f → ValidFields f := by
    intro l f h
    exact absurd h (by simp [noFallbackEngine])
  exact ⟨heng,
    c10_amended.1 noFallbackEngine heng (some "2024-12-15T05:00:00.000Z"),
    Or.inr (by decide),
    c10_amended.2 noFallbackEngine (some "2024-12-15T05:00:00.000Z")
      (Or.inr (by decide))⟩

/-! ### Loop guard handlers

Two directions:
- ShopVox → Wrike: the `process-shopvox-work-order-updated` handler
  (`work-order-updated.step.ts`, loop detection at lines 36–86). When the
  change set has exactly one key `dueDate`, it searches Wrike for the task,
  reads the Target Install Date custom field, and compares
  `salesOrder.dueDate?.trim() || ""` against the field value trimmed the same
  way — a raw trimmed-string comparison, *not* a date normalization. On a
  match it returns early (no write, no emit); on a mismatch, or an empty /
  failed search, it proceeds to `createOrUpdateWosoTask` and emits
  `work-order-updated-in-wrike`.
- Wrike → ShopVox: the `process-wrike-woso-target-install-date-changed`
  handler (`user-field-updated.step.ts`, loop prevention at lines 235–281).
  It fetches the sales order, normalizes both dates with
  `normalizeDateForComparison`, skips (emitting a success finality event with
  `skipped = true, reason = "loop_prevention"`) when they are equal and
  non-empty, and otherwise writes the due date and emits a plain success.

Each handler is modelled as a function of the outcomes of its remote calls;
the final write is assumed to succeed (its failure path is not part of the
claims). -/

/-- The `WRIKE_CUSTOM_FIELDS.TARGET_INSTALL_DATE` custom-field id. Its
concrete value lives in `src/constants/wrike-fields.ts` (not under `src/`);
the claims do not depend on the value, only on equality with itself, so it is
modelled as an opaque fixed string. -/
def targetInstallDateFieldId : String := "TARGET_INSTALL_DATE"

/-- One `{ id, value }` entry of a Wrike task's `customFields`. -/
structure WrikeCustomField where
  id : String
  value : Option String
deriving DecidableEq, Repr

/-- A Wrike task as the loop guard sees it: its custom fields (possibly
absent). -/
structure WrikeTaskCF where
  customFields : Option (List WrikeCustomField)
deriving DecidableEq, Repr

/-- `x?.trim() || ""`: trim when present, else the empty string (a trimmed
empty string is falsy and also maps to `""`). -/
def jsOrEmptyTrim : Option String → String
  | none => ""
  | some s => jsTrim s

/-- Observable outcome of the work-order-updated handler: whether
`createOrUpdateWosoTask` was invoked, whether the loop-check failure warning
was logged, whether the handler returned early from the loop check, and the
topics emitted. -/
structure WorkOrderOutcome where
  writeIssued : Bool
  loopWarned : Bool
  skippedEarly : Bool
  emitted : List String
deriving DecidableEq, Repr

/-- The ShopVox → Wrike work-order-updated handler (loop-detection portion,
lines 36–86, plus the ensuing write): `changeKeys` is
`Object.keys(input.changes)` when `input.changes` is present,
`searchResult` the outcome of `findTaskBySalesOrderId`. -/
def workOrderUpdatedHandler (changeKeys : Option (List String))
    (salesOrderDueDate : Option String)
    (searchResult : Except JsError (List WrikeTaskCF)) : WorkOrderOutcome :=
  let proceed : WorkOrderOutcome :=
    { writeIssued := true, loopWarned := false, skippedEarly := false,
      emitted := ["work-order-updated-in-wrike"] }
  match changeKeys with
  | none => proceed
  | some keys =>
    let isOnlyDueDateChange : Bool :=
      match keys with
      | [k] => k == "dueDate"
      | _ => false
    if isOnlyDueDateChange then
      match searchResult with
      | Except.error _ => { proceed with loopWarned := true }
      | Except.ok tasks =>
        match tasks with
        | [] => proceed
        | wrikeTask :: _ =>
          let targetInstallDateField := (wrikeTask.customFields.getD []).find?
            (fun cf => cf.id == targetInstallDateFieldId)
          let wrikeTargetInstallDate :=
            targetInstallDateField.bind (fun cf => cf.value)
          let shopvoxDueDate := jsOrEmptyTrim salesOrderDueDate
          let wrikeDueDate := jsOrEmptyTrim wrikeTargetInstallDate
          if shopvoxDueDate == wrikeDueDate then
            { writeIssued := false, loopWarned := false, skippedEarly := true,
              emitted := [] }
          else proceed
    else proceed

/-- A finality event as emitted by the target-install-date handler: topic,
and the `skipped` / `reason` fields of its result payload. -/
structure FinalityEmit where
  topic : String
  skipped : Bool
  reason : Option String
deriving DecidableEq, Repr

/-- Observable outcome of the target-install-date handler. -/
structure TargetDateOutcome where
  writeIssued : Bool
  loopWarned : Bool
  emitted : List FinalityEmit
deriving DecidableEq, Repr

/-- The sales order as the loop guard reads it: its due date. -/
structure SalesOrderRec where
  dueDate : Option String
deriving DecidableEq, Repr

/-- The Wrike → ShopVox target-install-date-changed handler (loop prevention
at lines 235–281 plus the ensuing write): `inputDueDate` is the event's new
date and `fetchSalesOrder` the outcome of `shopvoxService.getSalesOrder`. -/
def targetInstallDateChangedHandler (inputDueDate : String)
    (fetchSalesOrder : Except JsError SalesOrderRec) : TargetDateOutcome :=
  match fetchSalesOrder with
  | Except.error _ =>
    { writeIssued := true, loopWarned := true,
      emitted := [{ topic := "finality:target-install-date-updated-success",
                    skipped := false, reason := none }] }
  | Except.ok currentSalesOrder =>
    let wrikeDueDate := normalizeDateForComparison (some inputDueDate)
    let shopvoxDueDate := normalizeDateForComparison currentSalesOrder.dueDate
    if wrikeDueDate == shopvoxDueDate && wrikeDueDate != "" then
      { writeIssued := false, loopWarned := false,
        emitted := [{ topic := "finality:target-install-date-updated-success",
                      skipped := true, reason := some "loop_prevention" }] }
    else
      { writeIssued := true, loopWarned := false,
        emitted := [{ topic := "finality:target-install-date-updated-success",
                      skipped := false, reason := none }] }

/-- A Wrike task whose custom fields hold one Target Install Date entry with
the given value. -/
def woTaskWithTargetDate (v : Option String) : WrikeTaskCF :=
  { customFields := some [{ id := targetInstallDateFieldId, value := v }] }

/-- C7, counterexample. In the ShopVox → Wrike direction the comparison is a
raw trimmed-string comparison, not a date-only normalization: with the stored
ShopVox due date `"2024-05-01T00:00:00.000Z"` and the Wrike Target Install
Date `"2024-05-01"` — which normalize to the *same* day — the handler issues
the write instead of skipping; and when the raw strings do match, the skip
is a bare early return that records no skipped/loop_prevention outcome and
signals no success. -/
theorem c7_counterexample :
    normalizeDateForComparison (some "2024-05-01T00:00:00.000Z") =
      normalizeDateForComparison (some "2024-05-01") ∧
    normalizeDateForComparison (some "2024-05-01T00:00:00.000Z") ≠ "" ∧
    workOrderUpdatedHandler (some ["dueDate"])
        (some "2024-05-01T00:00:00.000Z")
        (Except.ok [woTaskWithTargetDate (some "2024-05-01")]) =
      { writeIssued := true, loopWarned := false, skippedEarly := false,
        emitted := ["work-order-updated-in-wrike"] } ∧
    workOrderUpdatedHandler (some ["dueDate"]) (some "2024-05-01")
        (Except.ok [woTaskWithTargetDate (some "2024-05-01")]) =
      { writeIssued := false, loopWarned := false, skippedEarly := true,
        emitted := [] } := by
  refine ⟨by decide, by decide, by decide, by decide⟩

/-- C7, amended. Only the Wrike → ShopVox direction behaves as claimed: the
target-install-date handler normalizes both values to date-only form, skips
the write and emits a success finality event with `skipped = true` and
`reason = "loop_prevention"` when the normalized values are equal and
non-empty, and issues the write when they differ. In the ShopVox → Wrike
direction, the work-order handler compares the raw values only via
`trim()`: equal trimmed strings produce a bare early return (no write, no
recorded skip outcome, no success signal), and trimmed strings that differ —
even when both normalize to the same date — produce the write. -/
theorem c7_loop_guard_amended :
    (∀ (d : String) (so : SalesOrderRec),
      (normalizeDateForComparison (some d) =
          normalizeDateForComparison so.dueDate →
        normalizeDateForComparison (some d) ≠ "" →
        targetInstallDateChangedHandler d (Except.ok so) =
          { writeIssued := false, loopWarned := false,
            emitted := [{ topic := "finality:target-install-date-updated-success",
                          skipped := true, reason := some "loop_prevention" }] }) ∧
      (normalizeDateForComparison (some d) ≠
          normalizeDateForComparison so.dueDate →
        targetInstallDateChangedHandler d (Except.ok so) =
          { writeIssued := true, loopWarned := false,
            emitted := [{ topic := "finality:target-install-date-updated-success",
                          skipped := false, reason := none }] })) ∧
    (∀ (dueOpt v : Option String) (rest : List WrikeTaskCF),
      (jsOrEmptyTrim dueOpt = jsOrEmptyTrim v →
        workOrderUpdatedHandler (some ["dueDate"]) dueOpt
          (Except.ok (woTaskWithTargetDate v :: rest)) =
          { writeIssued := false, loopWarned := false, skippedEarly := true,
            emitted := [] }) ∧
      (jsOrEmptyTrim dueOpt ≠ jsOrEmptyTrim v →
        workOrderUpdatedHandler (some ["dueDate"]) dueOpt
          (Except.ok (woTaskWithTargetDate v :: rest)) =
          { writeIssued := true, loopWarned := false, skippedEarly := false,
            emitted := ["work-order-updated-in-wrike"] })) := by
  constructor
  · intro d so
    constructor
    · intro h1 h2
      rw [h1] at h2
      simp [targetInstallDateChangedHandler, h1, h2]
    · intro h1
      simp [targetInstallDateChangedHandler, h1]
  · intro dueOpt v rest
    constructor
    · intro h
      simp [workOrderUpdatedHandler, woTaskWithTargetDate, List.find?, h]
    · intro h
      simp [workOrderUpdatedHandler, woTaskWithTargetDate, List.find?, h]

/-- Witness for `c7_loop_guard_amended` on concrete dates in both
directions. -/
theorem c7_loop_guard_amended_witness :
    (normalizeDateForComparison (some "2024-05-01T00:00:00.000Z") =
        normalizeDateForComparison (SalesOrderRec.mk (some "2024-05-01")).dueDate ∧
      normalizeDateForComparison (some "2024-05-01T00:00:00.000Z") ≠ "" ∧
      targetInstallDateChangedHandler "2024-05-01T00:00:00.000Z"
          (Except.ok (SalesOrderRec.mk (some "2024-05-01"))) =
        { writeIssued := false, loopWarned := false,
          emitted := [{ topic := "finality:target-install-date-updated-success",
                        skipped := true, reason := some "loop_prevention" }] }) ∧
    (normalizeDateForComparison (some "2024-05-02") ≠
        normalizeDateForComparison (SalesOrderRec.mk (some "2024-05-01")).dueDate ∧
      targetInstallDateChangedHandler "2024-05-02"
          (Except.ok (SalesOrderRec.mk (some "2024-05-01"))) =
        { writeIssued := true, loopWarned := false,
          emitted := [{ topic := "finality:target-install-date-updated-success",
                        skipped := false, reason := none }] }) ∧
    (jsOrEmptyTrim (some " 2024-05-01 ") = jsOrEmptyTrim (some "2024-05-01") ∧
      workOrderUpdatedHandler (some ["dueDate"]) (some " 2024-05-01 ")
          (Except.ok [woTaskWithTargetDate (some "2024-05-01")]) =
        { writeIssued := false, loopWarned := false, skippedEarly := true,
          emitted := [] }) := by
  refine ⟨⟨by decide, by decide, ?_⟩, ⟨by decide, ?_⟩, ⟨by decide, ?_⟩⟩
  · exact ((c7_loop_guard_amended.1 "2024-05-01T00:00:00.000Z"
      (SalesOrderRec.mk (some "2024-05-01"))).1 (by decide) (by decide))
  · exact ((c7_loop_guard_amended.1 "2024-05-02"
      (SalesOrderRec.mk (some "2024-05-01"))).2 (by decide))
  · exact ((c7_loop_guard_amended.2 (some " 2024-05-01 ")
      (some "2024-05-01") []).1 (by decide))

/-- C8. The loop guard fails open in both directions: when the lookup needed
for the loop comparison throws (the Wrike task search in the ShopVox → Wrike
handler, the ShopVox sales-order fetch in the Wrike → ShopVox handler), the
handler logs a warning and proceeds with the normal write instead of
aborting the flow. -/
theorem c8_loop_guard_fails_open :
    (∀ (e : JsError) (dueOpt : Option String),
      workOrderUpdatedHandler (some ["dueDate"]) dueOpt (Except.error e) =
        { writeIssued := true, loopWarned := true, skippedEarly := false,
          emitted := ["work-order-updated-in-wrike"] }) ∧
    (∀ (e : JsError) (d : String),
      targetInstallDateChangedHandler d (Except.error e) =
        { writeIssued := true, loopWarned := true,
          emitted := [{ topic := "finality:target-install-date-updated-success",
                        skipped := false, reason := none }] }) :=
  ⟨fun _ _ => rfl, fun _ _ => rfl⟩

/-! ### Execution-trace recorder (`src/services/postgres.service.ts`)

`logFlowStart` inserts a `flow_executions` row with status `running`;
`logFlowComplete` runs
`UPDATE flow_executions SET status = $1, completed_at = NOW(), ... WHERE
trace_id = $5` — with no guard on the current status. The table is modelled
as a list of rows; `NOW()` is an explicit clock argument. JavaScript's
falsy-coalescing in the bound parameters (`durationMs || null`,
`errorMessage || null`, `errorCategory || "unknown"`) is modelled
faithfully. -/

/-- `x || null` for a numeric argument: `0` is falsy and becomes `null`. -/
def jsOrNullNum : Option Int → Option Int
  | none => none
  | some d => if d == 0 then none else some d

/-- `x || null` for a string argument: `""` is falsy and becomes `null`. -/
def jsOrNullStr : Option String → Option String
  | none => none
  | some s => if s == "" then none else some s

/-- `errorCategory || "unknown"`. -/
def jsOrUnknown : Option String → String
  | none => "unknown"
  | some s => if s == "" then "unknown" else s

/-- One row of `flow_executions`. -/
structure FlowRow where
  traceId : String
  flowName : String
  flowType : String
  status : String
  completedAt : Option Nat
  durationMs : Option Int
  errorMessage : Option String
  errorCategory : Option String
  inputSummary : Option String
deriving DecidableEq, Repr

/-- `logFlowStart`: insert a new `running` row. -/
def logFlowStart (db : List FlowRow) (traceId flowName flowType : String)
    (inputSummary : Option String) : List FlowRow :=
  db ++ [{ traceId := traceId, flowName := flowName, flowType := flowType,
           status := "running", completedAt := none, durationMs := none,
           errorMessage := none, errorCategory := none,
           inputSummary := inputSummary }]

/-- `logFlowComplete`: update every row whose `trace_id` matches —
unconditionally, with no `status = 'running'` guard. -/
def logFlowComplete (db : List FlowRow) (now : Nat) (traceId status : String)
    (durationMs : Option Int) (errorMessage : Option String)
    (errorCategory : Option String) : List FlowRow :=
  db.map (fun r =>
    if r.traceId == traceId then
      { r with
        status := status
        completedAt := some now
        durationMs := jsOrNullNum durationMs
        errorMessage := jsOrNullStr errorMessage
        errorCategory :=
          if status == "failed" then some (jsOrUnknown errorCategory)
          else none }
    else r)

/-- C9, counterexample. After `logFlowStart` and a terminal
`logFlowComplete(success)`, a second `logFlowComplete(failed)` for the same
trace id changes the terminal status again — the update carries no
`status = 'running'` guard, so a second terminal transition is recorded. -/
theorem c9_counterexample :
    (logFlowStart [] "t1" "flow" "webhook" none).map FlowRow.status =
      ["running"] ∧
    (logFlowComplete (logFlowStart [] "t1" "flow" "webhook" none)
        10 "t1" "success" (some 5) none none).map FlowRow.status =
      ["success"] ∧
    (logFlowComplete
        (logFlowComplete (logFlowStart [] "t1" "flow" "webhook" none)
          10 "t1" "success" (some 5) none none)
        20 "t1" "failed" (some 6) (some "boom") (some "api_error")).map
      FlowRow.status = ["failed"] ∧
    ("failed" : String) ≠ "success" := by
  refine ⟨by rfl, by rfl, by rfl, by decide⟩

/-- C9, amended. `logFlowComplete` overwrites unconditionally: after two
completion calls for the same trace id, every row with that trace id carries
the status of the *last* call (last writer wins — at-most-one terminal
transition is not enforced by the store), and rows with other trace ids are
untouched. -/
theorem c9_amended :
    ∀ (db : List FlowRow) (n1 n2 : Nat) (tid s1 s2 : String)
      (d1 d2 : Option Int) (e1 e2 c1 c2 : Option String),
      ∀ r ∈ logFlowComplete (logFlowComplete db n1 tid s1 d1 e1 c1)
        n2 tid s2 d2 e2 c2,
        (r.traceId = tid → r.status = s2) ∧ (r.traceId ≠ tid → r ∈ db) := by
  intro db n1 n2 tid s1 s2 d1 d2 e1 e2 c1 c2 r hr
  unfold logFlowComplete at hr
  rw [List.map_map] at hr
  simp only [List.mem_map, Function.comp] at hr
  obtain ⟨r0, hr0, rfl⟩ := hr
  by_cases h : r0.traceId = tid
  · constructor
    · intro _
      simp [h]
    · intro hne
      exfalso
      apply hne
      simp [h]
  · have hb : (r0.traceId == tid) = false := beq_eq_false_iff_ne.mpr h
    constructor
    · intro htid
      simp only [hb, Bool.false_eq_true, if_false] at htid
      exact absurd htid h
    · intro _
      simpa [hb] using hr0

/-- The row left by the counterexample run: started, completed `success`,
then overwritten `failed`. -/
def c9FinalRow : FlowRow :=
  { traceId := "t1", flowName := "flow", flowType := "webhook",
    status := "failed", completedAt := some 20, durationMs := some 6,
    errorMessage := some "boom", errorCategory := some "api_error",
    inputSummary := none }

/-- Witness for `c9_amended`: in the two-completion run of the
counterexample, the single row carries the second status. -/
theorem c9_amended_witness :
    c9FinalRow ∈
      logFlowComplete
        (logFlowComplete (logFlowStart [] "t1" "flow" "webhook" none)
          10 "t1" "success" (some 5) none none)
        20 "t1" "failed" (some 6) (some "boom") (some "api_error") ∧
    (c9FinalRow.traceId = "t1" → c9FinalRow.status = "failed") :=
  ⟨by decide,
    (c9_amended (logFlowStart [] "t1" "flow" "webhook" none) 10 20 "t1"
      "success" "failed" (some 5) (some 6) none (some "boom") none
      (some "api_error") c9FinalRow (by decide)).1⟩

/-! ### Webhook authenticator (`part_001`, `verifyWebhookRequest`)

`hmacSha256(key, value)` is `crypto.createHmac("sha256", key).update(value)
.digest("hex")`; here HMAC-SHA256 is implemented concretely over byte lists
(FIPS 180-4 / RFC 2104), word arithmetic as `Nat` modulo `2^32`. The
implementation matches the published test vectors
(`sha256("abc")`, `HMAC-SHA256("key", "The quick brown fox ...")`). -/

/-- Addition modulo `2^32`. -/
def add32 (a b : Nat) : Nat := (a + b) % 4294967296

/-- Bitwise complement on 32 bits. -/
def not32 (x : Nat) : Nat := x ^^^ 4294967295

/-- Right rotation of a 32-bit word. -/
def rotr32 (n x : Nat) : Nat :=
  ((x >>> n) ||| (x <<< (32 - n))) % 4294967296

/-- SHA-256 Σ₀. -/
def bigSigma0 (x : Nat) : Nat := rotr32 2 x ^^^ rotr32 13 x ^^^ rotr32 22 x

/-- SHA-256 Σ₁. -/
def bigSigma1 (x : Nat) : Nat := rotr32 6 x ^^^ rotr32 11 x ^^^ rotr32 25 x

/-- SHA-256 σ₀. -/
def smallSigma0 (x : Nat) : Nat := rotr32 7 x ^^^ rotr32 18 x ^^^ (x >>> 3)

/-- SHA-256 σ₁. -/
def smallSigma1 (x : Nat) : Nat := rotr32 17 x ^^^ rotr32 19 x ^^^ (x >>> 10)

/-- SHA-256 Ch. -/
def chFn (x y z : Nat) : Nat := (x &&& y) ^^^ (not32 x &&& z)

/-- SHA-256 Maj. -/
def majFn (x y z : Nat) : Nat := (x &&& y) ^^^ (x &&& z) ^^^ (y &&& z)

/-- The 64 SHA-256 round constants. -/
def sha256K : List Nat :=
  [1116352408, 1899447441, 3049323471, 3921009573, 961987163,
   1508970993, 2453635748, 2870763221, 3624381080, 310598401,
   607225278, 1426881987, 1925078388, 2162078206, 2614888103,
   3248222580, 3835390401, 4022224774, 264347078, 604807628,
   770255983, 1249150122, 1555081692, 1996064986, 2554220882,
   2821834349, 2952996808, 3210313671, 3336571891, 3584528711,
   113926993, 338241895, 666307205, 773529912, 1294757372,
   1396182291, 1695183700, 1986661051, 2177026350, 2456956037,
   2730485921, 2820302411, 3259730800, 3345764771, 3516065817,
   3600352804, 4094571909, 275423344, 430227734, 506948616,
   659060556, 883997877, 958139571, 1322822218, 1537002063,
   1747873779, 1955562222, 2024104815, 2227730452, 2361852424,
   2428436474, 2756734187, 3204031479, 3329325298]

/-- The SHA-256 initial hash value. -/
def sha256H0 : List Nat :=
  [1779033703, 3144134277, 1013904242, 2773480762,
   1359893119, 2600822924, 528734635, 1541459225]

/-- The 64-bit big-endian message length (in bits) of the padding. -/
def lenBytes8 (n : Nat) : List Nat :=
  [n >>> 56 % 256, n >>> 48 % 256, n >>> 40 % 256, n >>> 32 % 256,
   n >>> 24 % 256, n >>> 16 % 256, n >>> 8 % 256, n % 256]

/-- SHA-256 padding: `0x80`, zeros to 56 mod 64, then the bit length. -/
def sha256Pad (msg : List Nat) : List Nat :=
  let padZeros := (64 + 56 - (msg.length + 1) % 64) % 64
  msg ++ 0x80 :: List.replicate padZeros 0 ++ lenBytes8 (8 * msg.length)

/-- Big-endian bytes to 32-bit words. -/
def bytesToWords : List Nat → List Nat
  | a :: b :: c :: d :: rest =>
    (a <<< 24 ||| b <<< 16 ||| c <<< 8 ||| d) :: bytesToWords rest
  | _ => []

/-- A 32-bit word to big-endian bytes. -/
def wordToBytes (w : Nat) : List Nat :=
  [w >>> 24 % 256, w >>> 16 % 256, w >>> 8 % 256, w % 256]

/-- Split the word stream into 16-word blocks (fuel-driven so the kernel can
evaluate it; the word count is always enough fuel). -/
def chunk16Fuel : Nat → List Nat → List (List Nat)
  | 0, _ => []
  | _, [] => []
  | fuel + 1, w :: rest =>
    (w :: rest).take 16 :: chunk16Fuel fuel ((w :: rest).drop 16)

/-- Split into 16-word blocks. -/
def chunk16 (l : List Nat) : List (List Nat) := chunk16Fuel l.length l

/-- One step of the message-schedule extension. -/
def extendStep (w : List Nat) : List Nat :=
  w ++ [add32
    (add32 (smallSigma1 (w.getD (w.length - 2) 0)) (w.getD (w.length - 7) 0))
    (add32 (smallSigma0 (w.getD (w.length - 15) 0)) (w.getD (w.length - 16) 0))]

/-- Iterate the schedule extension (48 times: 16 words to 64). -/
def extendIter : Nat → List Nat → List Nat
  | 0, w => w
  | k + 1, w => extendIter k (extendStep w)

/-- The eight working variables of a SHA-256 compression. -/
structure Sha256State where
  a : Nat
  b : Nat
  c : Nat
  d : Nat
  e : Nat
  f : Nat
  g : Nat
  h : Nat

/-- One SHA-256 round, consuming a `(k, w)` pair. -/
def roundFn (st : Sha256State) (kw : Nat × Nat) : Sha256State :=
  let t1 := add32 (add32 (add32 st.h (bigSigma1 st.e))
    (add32 (chFn st.e st.f st.g) kw.1)) kw.2
  let t2 := add32 (bigSigma0 st.a) (majFn st.a st.b st.c)
  { a := add32 t1 t2, b := st.a, c := st.b, d := st.c,
    e := add32 st.d t1, f := st.e, g := st.f, h := st.g }

/-- Compress one 16-word block into the running hash value. -/
def compressBlock (hv : List Nat) (block : List Nat) : List Nat :=
  let w := extendIter 48 block
  let st0 : Sha256State :=
    { a := hv.getD 0 0, b := hv.getD 1 0, c := hv.getD 2 0, d := hv.getD 3 0,
      e := hv.getD 4 0, f := hv.getD 5 0, g := hv.getD 6 0, h := hv.getD 7 0 }
  let st := (sha256K.zip w).foldl roundFn st0
  [add32 (hv.getD 0 0) st.a, add32 (hv.getD 1 0) st.b,
   add32 (hv.getD 2 0) st.c, add32 (hv.getD 3 0) st.d,
   add32 (hv.getD 4 0) st.e, add32 (hv.getD 5 0) st.f,
   add32 (hv.getD 6 0) st.g, add32 (hv.getD 7 0) st.h]

/-- SHA-256 of a byte list, as its 32 digest bytes. -/
def sha256 (msg : List Nat) : List Nat :=
  let blocks := chunk16 (bytesToWords (sha256Pad msg))
  (blocks.foldl compressBlock sha256H0).foldr
    (fun w acc => wordToBytes w ++ acc) []

/-- HMAC-SHA256 (RFC 2104) of a message under a key, as digest bytes:
`crypto.createHmac("sha256", key).update(value).digest()`. -/
def hmacSha256 (key msg : List Nat) : List Nat :=
  let k0 := if key.length > 64 then sha256 key else key
  let kpad := k0 ++ List.replicate (64 - k0.length) 0
  let ipad := kpad.map (fun b => b ^^^ 0x36)
  let opad := kpad.map (fun b => b ^^^ 0x5c)
  sha256 (opad ++ sha256 (ipad ++ msg))

/-- A nibble as a lowercase hex character. -/
def hexChar (n : Nat) : Char :=
  if n < 10 then Char.ofNat (48 + n) else Char.ofNat (87 + n)

/-- `.digest("hex")`: the digest bytes as a lowercase hex string. -/
def hexDigest (bytes : List Nat) : String :=
  ⟨bytes.foldr (fun b acc => hexChar (b / 16) :: hexChar (b % 16) :: acc) []⟩

/-- `hmacSha256(key, value)` of the source: the hex digest. -/
def hmacSha256Hex (key msg : List Nat) : String := hexDigest (hmacSha256 key msg)

/-- The bytes of an ASCII string (UTF-8 coincides with code points here). -/
def strToBytes (s : String) : List Nat := s.data.map Char.toNat

/-- The inbound request as `verifyWebhookRequest` inspects it: the
`x-hook-secret` header, whether the parsed body is Wrike's
`"WebHook secret verification"` challenge, the raw body bytes when captured
(`req.rawBody` as string or `Buffer`), and the pretty-printed
re-serialization of the parsed body used as the fallback. -/
structure WrikeWebhookReq where
  xHookSecret : Option String
  isVerificationBody : Bool
  rawBody : Option (List Nat)
  prettyBody : List Nat

/-- The `WrikeWebhookVerificationResult` of the source. -/
structure WrikeWebhookVerification where
  isVerification : Bool
  isValid : Bool
  calculatedSecret : Option String
  error : Option String
deriving DecidableEq, Repr

/-- `verifyWebhookRequest(req)`: answer the one-time secret-verification
challenge with `HMAC-SHA256(secret, nonce)`; otherwise compare the
`x-hook-secret` header against `HMAC-SHA256(secret, body)` over the raw body
bytes (or the pretty-printed fallback when no raw body was captured); a
request without the header is rejected. -/
def verifyWebhookRequest (wrikeSecret : List Nat) (req : WrikeWebhookReq) :
    WrikeWebhookVerification :=
  match req.xHookSecret with
  | some hdr =>
    if req.isVerificationBody then
      { isVerification := true, isValid := true,
        calculatedSecret := some (hmacSha256Hex wrikeSecret (strToBytes hdr)),
        error := none }
    else
      let bodyForSignature := req.rawBody.getD req.prettyBody
      let expectedSig := hmacSha256Hex wrikeSecret bodyForSignature
      if expectedSig != hdr then
        { isVerification := false, isValid := false, calculatedSecret := none,
          error := some "Invalid webhook signature" }
      else
        { isVerification := false, isValid := true, calculatedSecret := none,
          error := none }
  | none =>
    { isVerification := false, isValid := false, calculatedSecret := none,
      error := some "Missing webhook signature" }

/-- An ordinary (non-challenge) event request with the given header, raw
body, and pretty-printed fallback body. -/
def mkEventReq (hdr : Option String) (raw : Option (List Nat))
    (pretty : List Nat) : WrikeWebhookReq :=
  { xHookSecret := hdr, isVerificationBody := false, rawBody := raw,
    prettyBody := pretty }

/-- C5. For every shared secret `S` and raw body `B`: a request whose
signature header equals `HMAC-SHA256(S, B)` in hex is accepted; a request
carrying that same header over a different raw body `B2` is rejected
whenever the two bodies' MACs differ — which is the checkable content of
"any single-byte mutation is rejected" (that every single-byte mutation
actually changes the MAC is collision resistance of HMAC-SHA256, a
cryptographic assumption no program proof can discharge; the witness
exhibits a concrete single-byte mutation and computes both MACs); a request
with no signature header is rejected. -/
theorem c5_signature_verification :
    (∀ (S B pretty : List Nat),
      (verifyWebhookRequest S
        (mkEventReq (some (hmacSha256Hex S B)) (some B) pretty)).isValid =
        true) ∧
    (∀ (S B B2 pretty : List Nat),
      hmacSha256Hex S B2 ≠ hmacSha256Hex S B →
      (verifyWebhookRequest S
        (mkEventReq (some (hmacSha256Hex S B)) (some B2) pretty)).isValid =
        false) ∧
    (∀ (S pretty : List Nat) (raw : Option (List Nat)),
      (verifyWebhookRequest S (mkEventReq none raw pretty)).isValid = false) := by
  refine ⟨?_, ?_, ?_⟩
  · intro S B pretty
    simp [verifyWebhookRequest, mkEventReq]
  · intro S B B2 pretty h
    simp [verifyWebhookRequest, mkEventReq, h]
  · intro S pretty raw
    rfl

/- Witness for the signature-verification theorem with secret `"secret"`,
body `"hello world"`, and the single-byte mutation `"hallo world"`: the two
MACs are computed concretely and differ, the original body is accepted, the
mutated one rejected, and a header-less request rejected. -/
set_option maxRecDepth 100000 in
theorem c5_signature_verification_witness :
    (verifyWebhookRequest (strToBytes "secret")
      (mkEventReq
        (some (hmacSha256Hex (strToBytes "secret") (strToBytes "hello world")))
        (some (strToBytes "hello world")) [])).isValid = true ∧
    hmacSha256Hex (strToBytes "secret") (strToBytes "hallo world") ≠
      hmacSha256Hex (strToBytes "secret") (strToBytes "hello world") ∧
    (verifyWebhookRequest (strToBytes "secret")
      (mkEventReq
        (some (hmacSha256Hex (strToBytes "secret") (strToBytes "hello world")))
        (some (strToBytes "hallo world")) [])).isValid = false ∧
    (List.zip (strToBytes "hello world") (strToBytes "hallo world")).countP
      (fun p => p.1 != p.2) = 1 ∧
    (strToBytes "hello world").length = (strToBytes "hallo world").length ∧
    (verifyWebhookRequest (strToBytes "secret")
      (mkEventReq none none [])).isValid = false := by
  have hne : hmacSha256Hex (strToBytes "secret") (strToBytes "hallo world") ≠
      hmacSha256Hex (strToBytes "secret") (strToBytes "hello world") := by
    decide
  exact ⟨c5_signature_verification.1 _ _ _, hne,
    c5_signature_verification.2.1 _ _ _ _ hne, by decide, by decide,
    c5_signature_verification.2.2 _ _ _⟩

end WelchSign
